import Mathlib

/-!
The border colour classes of sway, file `commands/client.c`.

A shallow embedding of `sway/commands/client.c` (the `client.<class>` colour
commands) and theorems about it.

Conventions of the embedding

* `argc`/`argv` are one `List String`; `argc` is its length and `argv + 1` its tail.
* A `struct cmd_results *` is an `Option cmd_results`; `NULL` is `none`.
* `float[4]` colour components are exact rationals.
* `parse_color` and `color_to_rgba` live in another translation unit; every
  function that decodes a colour takes them as a `Codec` parameter.
* Records reached through a pointer (`con->border_colors[class]`) live in an
  explicit `Heap`; a null pointer is `none`.
* A call of `root_for_each_container (container_update_iterator, NULL)` is
  counted in `State.refreshes`; lines written by `sway_log` are appended to
  `State.log`.
-/

namespace Sway

/-! ## Data -/

/-- The C type `float[4]`: red, green, blue, alpha. -/
structure rgba where
  r : Rat
  g : Rat
  b : Rat
  a : Rat
deriving DecidableEq

/-- The all-zero colour, as produced by `= {0}` and by `calloc`. -/
def rgba.zero : rgba := ⟨0, 0, 0, 0⟩

/-- The C type `struct border_colors`: the five colours of one class. -/
structure border_colors where
  border : rgba
  background : rgba
  text : rgba
  indicator : rgba
  child_border : rgba
deriving DecidableEq

/-- The record `struct border_colors colors = {0}`. -/
def border_colors.zero : border_colors :=
  ⟨rgba.zero, rgba.zero, rgba.zero, rgba.zero, rgba.zero⟩

/-- The C type `enum border_color_class`, the index of the colour tables. -/
inductive border_color_class where
  | focused
  | focused_inactive
  | unfocused
  | urgent
  | focused_tab_title
deriving DecidableEq

/-- The C type `enum cmd_status`, restricted to the two values this file produces. -/
inductive cmd_status where
  | CMD_SUCCESS
  | CMD_INVALID
deriving DecidableEq

/-- The C type `struct cmd_results`: a status and an optional message. -/
structure cmd_results where
  status : cmd_status
  error : Option String
deriving DecidableEq

/-- The constructor `cmd_results_new (status, format, ...)` with the message already formatted. -/
def cmd_results_new (status : cmd_status) (error : Option String) : cmd_results :=
  ⟨status, error⟩

/-- The C type `enum expected_args`, restricted to the two kinds used here. -/
inductive expected_args where
  | EXPECTED_AT_LEAST
  | EXPECTED_AT_MOST
deriving DecidableEq

/-- Modelled from the spec: `checkarg`, the argument-count check that is defined outside
`client.c`. It yields no result when the count satisfies the bound and an invalid-command
result (the spec's `ArityError`, with a descriptive message) when it does not. -/
def checkarg (argc : Nat) (name : String) (type : expected_args) (val : Nat) :
    Option cmd_results :=
  match type with
  | .EXPECTED_AT_LEAST =>
    if argc < val then
      some (cmd_results_new .CMD_INVALID
        (some ("Invalid " ++ name ++ " command (expected at least " ++ toString val
          ++ " arguments, got " ++ toString argc ++ ")")))
    else none
  | .EXPECTED_AT_MOST =>
    if argc > val then
      some (cmd_results_new .CMD_INVALID
        (some ("Invalid " ++ name ++ " command (expected at most " ++ toString val
          ++ " arguments, got " ++ toString argc ++ ")")))
    else none

/-- The colour codec that `client.c` calls but does not define: `parse_color` reads a token
into a 32-bit colour or fails, `color_to_rgba` spreads a 32-bit colour over four floats. -/
structure Codec where
  parse_color : String → Option Nat
  color_to_rgba : Nat → rgba

/-- The decode of a token: `parse_color` followed by `color_to_rgba`. -/
def Codec.decode (cdc : Codec) (hex : String) : Option rgba :=
  (cdc.parse_color hex).map cdc.color_to_rgba

/-! ## `handle_colors` -/

/-- The destination `float *rgba[4]` of one row of the `properties` table. -/
inductive colors_field where
  | border
  | background
  | text
  | indicator
  | child_border
deriving DecidableEq

/-- One row of the `properties` table of `handle_colors`. -/
structure property where
  name : String
  hex : String
  field : colors_field
deriving DecidableEq

/-- The write `color_to_rgba (*properties[i].rgba, color)` into the local record. -/
def colors_field.set (f : colors_field) (colors : border_colors) (v : rgba) : border_colors :=
  match f with
  | .border => { colors with border := v }
  | .background => { colors with background := v }
  | .text => { colors with text := v }
  | .indicator => { colors with indicator := v }
  | .child_border => { colors with child_border := v }

/-- The `properties` table of `handle_colors`, with `ind_hex` and `child_hex` resolved. -/
def properties (argv : List String) (default_indicator : String) : List property :=
  let argc := argv.length
  let ind_hex := if argc > 3 then argv.getD 3 "" else default_indicator
  let child_hex := if argc > 4 then argv.getD 4 "" else argv.getD 1 ""
  [ ⟨"border", argv.getD 0 "", .border⟩,
    ⟨"background", argv.getD 1 "", .background⟩,
    ⟨"text", argv.getD 2 "", .text⟩,
    ⟨"indicator", ind_hex, .indicator⟩,
    ⟨"child_border", child_hex, .child_border⟩ ]

/-- The `for` loop of `handle_colors`: decode the rows in order into `colors`, leaving at the
first token that `parse_color` rejects. -/
def handle_colors_loop (cdc : Codec) :
    List property → border_colors → Except cmd_results border_colors
  | [], colors => .ok colors
  | p :: ps, colors =>
    match cdc.parse_color p.hex with
    | none =>
      .error (cmd_results_new .CMD_INVALID
        (some ("Invalid " ++ p.name ++ " color " ++ p.hex)))
    | some color => handle_colors_loop cdc ps (p.field.set colors (cdc.color_to_rgba color))

/-- What a call of `handle_colors` does: the returned pointer, the record copied over `*class`
by the closing `memcpy` (if that line was reached), and the lines logged. -/
structure colors_outcome where
  error : Option cmd_results
  committed : Option border_colors
  log : List String
deriving DecidableEq

/-- The function `handle_colors (argc, argv, cmd_name, class, default_indicator)`. The target
`*class` is only ever written by the closing `memcpy`, so it is not an input here. -/
def handle_colors (cdc : Codec) (argv : List String) (cmd_name : String)
    (default_indicator : String) : colors_outcome :=
  let argc := argv.length
  match (checkarg argc cmd_name .EXPECTED_AT_LEAST 3).orElse
      (fun _ => checkarg argc cmd_name .EXPECTED_AT_MOST 5) with
  | some error => ⟨some error, none, []⟩
  | none =>
    let log :=
      if argc > 3 ∧ cmd_name = "client.focused_tab_title" then
        ["Warning: indicator and child_border colors have no effect for " ++ cmd_name]
      else []
    match handle_colors_loop cdc (properties argv default_indicator) border_colors.zero with
    | .error e => ⟨some e, none, log⟩
    | .ok colors => ⟨none, some colors, log⟩

/-! ## Program state -/

/-- The heap of `struct border_colors` records owned by containers. -/
structure Heap where
  /-- The record stored at an address; `none` for an address that is not allocated. -/
  cells : Nat → Option border_colors
  /-- The address the next successful `calloc` returns. -/
  next : Nat
  /-- Number of successful `calloc` calls so far. -/
  allocs : Nat
  /-- Number of `free` calls so far. -/
  frees : Nat
  /-- Whether each coming `calloc` call fails, in order; once exhausted, `calloc` succeeds. -/
  calloc_fails : List Bool
  /-- Set once a freed or never allocated address is freed or written. -/
  fault : Bool

/-- The call `calloc (1, sizeof (struct border_colors))`: a null pointer, or a fresh address
holding a zeroed record. -/
def Heap.calloc (h : Heap) : Option Nat × Heap :=
  if h.calloc_fails.head? = some true then
    (none, { h with calloc_fails := h.calloc_fails.tail })
  else
    (some h.next,
      { h with
        cells := Function.update h.cells h.next (some border_colors.zero)
        next := h.next + 1
        allocs := h.allocs + 1
        calloc_fails := h.calloc_fails.tail })

/-- The call `free (p)` on a non-null pointer. -/
def Heap.free (h : Heap) (p : Nat) : Heap :=
  { h with
    cells := Function.update h.cells p none
    frees := h.frees + 1
    fault := h.fault || (h.cells p).isNone }

/-- The write `memcpy (p, &colors, sizeof (struct border_colors))`. -/
def Heap.memcpy (h : Heap) (p : Nat) (colors : border_colors) : Heap :=
  match h.cells p with
  | some _ => { h with cells := Function.update h.cells p (some colors) }
  | none => { h with fault := true }

/-- The part of `struct sway_container` this file touches: one override pointer per class. -/
structure sway_container where
  border_colors : border_color_class → Option Nat

/-- The part of `struct sway_config` this file touches. -/
structure sway_config where
  /-- The table `config->border_colors`, one record per class. -/
  border_colors : border_color_class → Sway.border_colors
  /-- The flag `config->active`. -/
  active : Bool
  /-- The flag `config->has_focused_tab_title`. -/
  has_focused_tab_title : Bool
  /-- The pointer `config->handler_context.container`. -/
  handler_context_container : Option Nat

/-- Everything the commands read or write. -/
structure State where
  config : sway_config
  /-- The containers, by address. -/
  containers : Nat → sway_container
  heap : Heap
  /-- Number of `root_for_each_container (container_update_iterator, NULL)` calls so far. -/
  refreshes : Nat
  /-- Lines written by `sway_log`, oldest first. -/
  log : List String

/-- The assignment `config->border_colors[class] = colors` done by `memcpy`. -/
def State.set_global (s : State) (cls : border_color_class) (colors : border_colors) : State :=
  { s with config := { s.config with
      border_colors := Function.update s.config.border_colors cls colors } }

/-- The assignment `con->border_colors[class] = p`. -/
def State.set_override (s : State) (con : Nat) (cls : border_color_class) (p : Option Nat) :
    State :=
  let c : sway_container := ⟨Function.update (s.containers con).border_colors cls p⟩
  { s with containers := Function.update s.containers con c }

/-- The closing block of both mutations:
`if (config->active) root_for_each_container (container_update_iterator, NULL);`. -/
def State.refresh (s : State) : State :=
  if s.config.active then { s with refreshes := s.refreshes + 1 } else s

/-! ## The commands -/

/-- The function `handle_command`: a mutation of `config->border_colors[class]`. -/
def handle_command (cdc : Codec) (argv : List String) (cmd_name : String)
    (cls : border_color_class) (default_indicator : String) (s : State) :
    Option cmd_results × State :=
  let r := handle_colors cdc argv cmd_name default_indicator
  let s1 : State := { s with log := s.log ++ r.log }
  let s2 : State :=
    match r.committed with
    | some colors => s1.set_global cls colors
    | none => s1
  match r.error with
  | some error => (some error, s2)
  | none => (none, s2.refresh)

/-- The function `handle_container_command`: a mutation of `con->border_colors[class]`. -/
def handle_container_command (cdc : Codec) (argv : List String) (cmd_name : String)
    (con : Nat) (cls : border_color_class) (default_indicator : String) (s : State) :
    Option cmd_results × State :=
  let argc := argv.length
  match checkarg argc cmd_name .EXPECTED_AT_LEAST 1 with
  | some error => (some error, s)
  | none =>
    if argv.getD 0 "" = "default" then
      match checkarg argc cmd_name .EXPECTED_AT_MOST 1 with
      | some error => (some error, s)
      | none =>
        let s1 : State :=
          match (s.containers con).border_colors cls with
          | some p => ({ s with heap := s.heap.free p }).set_override con cls none
          | none => s
        (none, s1.refresh)
    else
      let slot := (s.containers con).border_colors cls
      let alloc : Option Nat × Heap :=
        match slot with
        | some p => (some p, s.heap)
        | none => s.heap.calloc
      match alloc.1 with
      | none =>
        (some (cmd_results_new .CMD_INVALID (some "Unable to allocate color configuration")),
          { s with heap := alloc.2 })
      | some newclass =>
        let r := handle_colors cdc argv cmd_name default_indicator
        let heap1 : Heap :=
          match r.committed with
          | some colors => alloc.2.memcpy newclass colors
          | none => alloc.2
        let s1 : State := { s with heap := heap1, log := s.log ++ r.log }
        match r.error with
        | some error => (some error, { s1 with heap := s1.heap.free newclass })
        | none =>
          let s2 : State :=
            match (s1.containers con).border_colors cls with
            | none => s1.set_override con cls (some newclass)
            | some _ => s1
          (none, s2.refresh)

/-- The function `handle_command_context`: choose the scope, then always return a result. -/
def handle_command_context (cdc : Codec) (argv : List String) (cmd_name : String)
    (cls : border_color_class) (con : Option Nat) (default_indicator : String) (s : State) :
    cmd_results × State :=
  match checkarg argv.length cmd_name .EXPECTED_AT_LEAST 1 with
  | some error => (error, s)
  | none =>
    let r : Option cmd_results × State :=
      if argv.getD 0 "" = "global" then
        handle_command cdc argv.tail cmd_name cls default_indicator s
      else
        match con with
        | some c => handle_container_command cdc argv cmd_name c cls default_indicator s
        | none => handle_command cdc argv cmd_name cls default_indicator s
    match r.1 with
    | some error => (error, r.2)
    | none => (cmd_results_new .CMD_SUCCESS none, r.2)

/-- The entry point `cmd_client_focused`. -/
def cmd_client_focused (cdc : Codec) (argv : List String) (s : State) : cmd_results × State :=
  let con := s.config.handler_context_container
  handle_command_context cdc argv "client.focused" .focused con "#2e9ef4ff" s

/-- The entry point `cmd_client_focused_inactive`. -/
def cmd_client_focused_inactive (cdc : Codec) (argv : List String) (s : State) :
    cmd_results × State :=
  let con := s.config.handler_context_container
  handle_command_context cdc argv "client.focused_inactive" .focused_inactive con "#484e50ff" s

/-- The entry point `cmd_client_unfocused`. -/
def cmd_client_unfocused (cdc : Codec) (argv : List String) (s : State) : cmd_results × State :=
  let con := s.config.handler_context_container
  handle_command_context cdc argv "client.unfocused" .unfocused con "#292d2eff" s

/-- The entry point `cmd_client_urgent`. -/
def cmd_client_urgent (cdc : Codec) (argv : List String) (s : State) : cmd_results × State :=
  let con := s.config.handler_context_container
  handle_command_context cdc argv "client.urgent" .urgent con "#900000ff" s

/-- The entry point `cmd_client_focused_tab_title`. -/
def cmd_client_focused_tab_title (cdc : Codec) (argv : List String) (s : State) :
    Option cmd_results × State :=
  let result := handle_command cdc argv "client.focused_tab_title" .focused_tab_title
    "#2e9ef4ff" s
  match result.1 with
  | some r =>
    if r.status = .CMD_SUCCESS then
      (result.1, { result.2 with config := { result.2.config with has_focused_tab_title := true } })
    else result
  | none => result

/-! ## A concrete codec and concrete states -/

/-- Modelled from the spec: the value of one hexadecimal digit, in either case. -/
def hex_digit (c : Char) : Option Nat :=
  if '0' ≤ c ∧ c ≤ '9' then some (c.toNat - '0'.toNat)
  else if 'a' ≤ c ∧ c ≤ 'f' then some (c.toNat - 'a'.toNat + 10)
  else if 'A' ≤ c ∧ c ≤ 'F' then some (c.toNat - 'A'.toNat + 10)
  else none

/-- Modelled from the spec: the value of a run of hexadecimal digits, most significant first. -/
def hex_value : List Char → Nat → Option Nat
  | [], acc => some acc
  | c :: cs, acc =>
    match hex_digit c with
    | none => none
    | some d => hex_value cs (acc * 16 + d)

/-- Modelled from the spec: `parse_color` of the Color Codec, which is defined outside
`client.c`. It accepts the leading marker `#` followed by 8 hexadecimal digits (RGBA) or by 6
(RGB, read as opaque), in either case, and rejects every other token. -/
def parse_color (color : String) : Option Nat :=
  match color.data with
  | '#' :: ds =>
    if ds.length = 8 then hex_value ds 0
    else if ds.length = 6 then (hex_value ds 0).map (fun v => v * 256 + 255)
    else none
  | _ => none

/-- Modelled from the spec: `color_to_rgba` of the Color Codec, which is defined outside
`client.c`. Each of the four bytes of the colour becomes a component normalised to `[0, 1]`. -/
def color_to_rgba (color : Nat) : rgba :=
  ⟨((color / 2 ^ 24 % 256 : Nat) : Rat) / 255, ((color / 2 ^ 16 % 256 : Nat) : Rat) / 255,
    ((color / 2 ^ 8 % 256 : Nat) : Rat) / 255, ((color % 256 : Nat) : Rat) / 255⟩

/-- The codec of the spec, used wherever a concrete codec is needed. -/
def hex_codec : Codec := ⟨parse_color, color_to_rgba⟩

/-- An empty heap on which every `calloc` succeeds. -/
def Heap.empty : Heap := ⟨fun _ => none, 0, 0, 0, [], false⟩

/-- A state with an active configuration, an all-zero global table, no container in the
handler context, no overrides and an empty heap. -/
def State.initial : State :=
  { config := ⟨fun _ => border_colors.zero, true, false, none⟩
    containers := fun _ => ⟨fun _ => none⟩
    heap := Heap.empty
    refreshes := 0
    log := [] }

/-- The state `State.initial` after container `0` was given an override record (at address `0`,
all zero) for the class `urgent`. -/
def State.with_urgent_override : State :=
  ({ State.initial with heap := State.initial.heap.calloc.2 }).set_override 0 .urgent (some 0)

/-- The command name that the entry point of a class passes down. -/
def class_cmd_name : border_color_class → String
  | .focused => "client.focused"
  | .focused_inactive => "client.focused_inactive"
  | .unfocused => "client.unfocused"
  | .urgent => "client.urgent"
  | .focused_tab_title => "client.focused_tab_title"

/-- The default indicator string that the entry point of a class passes down. -/
def class_default_indicator : border_color_class → String
  | .focused => "#2e9ef4ff"
  | .focused_inactive => "#484e50ff"
  | .unfocused => "#292d2eff"
  | .urgent => "#900000ff"
  | .focused_tab_title => "#2e9ef4ff"

/-- The line that `handle_colors` logs once the count checks have passed. -/
def handle_colors_log (argc : Nat) (cmd_name : String) : List String :=
  if argc > 3 ∧ cmd_name = "client.focused_tab_title" then
    ["Warning: indicator and child_border colors have no effect for " ++ cmd_name]
  else []

/-- The first row of the `properties` table, in table order, whose token `parse_color`
rejects. -/
def first_failing (cdc : Codec) (argv : List String) (default_indicator : String) :
    Option property :=
  (properties argv default_indicator).find? (fun p => (cdc.parse_color p.hex).isNone)

/-- The function `handle_colors` with its `sway_log` block taken out: the returned pointer and
the record copied by the closing `memcpy`. -/
def handle_colors_quiet (cdc : Codec) (argv : List String) (cmd_name : String)
    (default_indicator : String) : Option cmd_results × Option border_colors :=
  let argc := argv.length
  match (checkarg argc cmd_name .EXPECTED_AT_LEAST 3).orElse
      (fun _ => checkarg argc cmd_name .EXPECTED_AT_MOST 5) with
  | some error => (some error, none)
  | none =>
    match handle_colors_loop cdc (properties argv default_indicator) border_colors.zero with
    | .error e => (some e, none)
    | .ok colors => (none, some colors)

/-- The state `State.with_urgent_override` with a distinct record installed in the global table
for `focused` and an override (at address `1`) for `focused` on container `0` as well. -/
def State.with_two_overrides : State :=
  (({ State.with_urgent_override with
      heap := State.with_urgent_override.heap.calloc.2 }).set_override 0 .focused
    (some 1)).set_global .focused
    ⟨rgba.zero, rgba.zero, rgba.zero, rgba.zero, ⟨1, 1, 1, 1⟩⟩

/-! ## The argument-count check -/

theorem checkarg_at_least_eq_none {argc val : Nat} (name : String) (h : val ≤ argc) :
    checkarg argc name .EXPECTED_AT_LEAST val = none := by
  simp [checkarg, Nat.not_lt.mpr h]

theorem checkarg_at_most_eq_none {argc val : Nat} (name : String) (h : argc ≤ val) :
    checkarg argc name .EXPECTED_AT_MOST val = none := by
  simp [checkarg, Nat.not_lt.mpr h]

theorem checkarg_at_least_isSome {argc val : Nat} (name : String) (h : argc < val) :
    (checkarg argc name .EXPECTED_AT_LEAST val).isSome = true := by
  simp [checkarg, h]

theorem checkarg_at_most_isSome {argc val : Nat} (name : String) (h : val < argc) :
    (checkarg argc name .EXPECTED_AT_MOST val).isSome = true := by
  simp [checkarg, h]

/-! ## `handle_colors` on well-formed token lists -/

/-- The codec of the spec decodes the default indicator string of every class. -/
theorem class_default_indicator_decodes (cls : border_color_class) :
    (hex_codec.parse_color (class_default_indicator cls)).isSome = true := by
  cases cls <;> decide

/-- Claim C1. With exactly three tokens that all decode, and the command name and default
indicator string of any class entry point (the default string decoding too), `handle_colors`
returns no error and commits the record whose border, background and text are the decodes of
tokens 0, 1 and 2, whose indicator is the decode of the default string of the class, and whose
child border is the decode of token 1. The last five conjuncts tie the command names and
default strings to the five entry points. -/
theorem handle_colors_three_tokens (cdc : Codec) (cls : border_color_class)
    (t0 t1 t2 : String) (n0 n1 n2 nd : Nat)
    (h0 : cdc.parse_color t0 = some n0) (h1 : cdc.parse_color t1 = some n1)
    (h2 : cdc.parse_color t2 = some n2)
    (hd : cdc.parse_color (class_default_indicator cls) = some nd) :
    handle_colors cdc [t0, t1, t2] (class_cmd_name cls) (class_default_indicator cls)
        = ⟨none, some ⟨cdc.color_to_rgba n0, cdc.color_to_rgba n1, cdc.color_to_rgba n2,
            cdc.color_to_rgba nd, cdc.color_to_rgba n1⟩, []⟩
      ∧ (∀ argv s, cmd_client_focused cdc argv s
          = handle_command_context cdc argv (class_cmd_name .focused) .focused
              s.config.handler_context_container (class_default_indicator .focused) s)
      ∧ (∀ argv s, cmd_client_focused_inactive cdc argv s
          = handle_command_context cdc argv (class_cmd_name .focused_inactive) .focused_inactive
              s.config.handler_context_container (class_default_indicator .focused_inactive) s)
      ∧ (∀ argv s, cmd_client_unfocused cdc argv s
          = handle_command_context cdc argv (class_cmd_name .unfocused) .unfocused
              s.config.handler_context_container (class_default_indicator .unfocused) s)
      ∧ (∀ argv s, cmd_client_urgent cdc argv s
          = handle_command_context cdc argv (class_cmd_name .urgent) .urgent
              s.config.handler_context_container (class_default_indicator .urgent) s)
      ∧ (∀ argv s, (cmd_client_focused_tab_title cdc argv s).1
          = (handle_command cdc argv (class_cmd_name .focused_tab_title) .focused_tab_title
              (class_default_indicator .focused_tab_title) s).1) := by
  refine ⟨?_, fun _ _ => rfl, fun _ _ => rfl, fun _ _ => rfl, fun _ _ => rfl, ?_⟩
  · simp [handle_colors, checkarg, properties, handle_colors_loop, h0, h1, h2, hd,
      colors_field.set, border_colors.zero]
  · intro argv s
    simp only [cmd_client_focused_tab_title, class_cmd_name, class_default_indicator]
    split
    · split <;> rfl
    · rfl

/-- Claim C1 at `client.focused #ff0000ff #00ff00ff #0000ffff` with the codec of the spec. -/
theorem handle_colors_three_tokens_witness :
    handle_colors hex_codec ["#ff0000ff", "#00ff00ff", "#0000ffff"] "client.focused" "#2e9ef4ff"
      = ⟨none, some ⟨color_to_rgba 0xff0000ff, color_to_rgba 0x00ff00ff,
          color_to_rgba 0x0000ffff, color_to_rgba 0x2e9ef4ff, color_to_rgba 0x00ff00ff⟩, []⟩ :=
  (handle_colors_three_tokens hex_codec .focused "#ff0000ff" "#00ff00ff" "#0000ffff"
    0xff0000ff 0x00ff00ff 0x0000ffff 0x2e9ef4ff
    (by decide) (by decide) (by decide) (by decide)).1

/-- Claim C2. With exactly five tokens that all decode, `handle_colors` returns no error and
commits the record whose border, background, text, indicator and child border are the decodes
of tokens 0 to 4, whatever the command name and whatever the default indicator string (which
does not occur in the outcome); the only line logged is the warning of
`client.focused_tab_title`. -/
theorem handle_colors_five_tokens (cdc : Codec) (cmd_name default_indicator : String)
    (t0 t1 t2 t3 t4 : String) (n0 n1 n2 n3 n4 : Nat)
    (h0 : cdc.parse_color t0 = some n0) (h1 : cdc.parse_color t1 = some n1)
    (h2 : cdc.parse_color t2 = some n2) (h3 : cdc.parse_color t3 = some n3)
    (h4 : cdc.parse_color t4 = some n4) :
    handle_colors cdc [t0, t1, t2, t3, t4] cmd_name default_indicator
      = ⟨none, some ⟨cdc.color_to_rgba n0, cdc.color_to_rgba n1, cdc.color_to_rgba n2,
            cdc.color_to_rgba n3, cdc.color_to_rgba n4⟩,
          if cmd_name = "client.focused_tab_title" then
            ["Warning: indicator and child_border colors have no effect for " ++ cmd_name]
          else []⟩ := by
  simp [handle_colors, checkarg, properties, handle_colors_loop, h0, h1, h2, h3, h4,
    colors_field.set, border_colors.zero]

/-- Claim C2 at `client.urgent #ff0000ff #00ff00ff #0000ffff #ffffffff #000000` with the codec
of the spec and a default indicator string that is not a colour. -/
theorem handle_colors_five_tokens_witness :
    handle_colors hex_codec ["#ff0000ff", "#00ff00ff", "#0000ffff", "#ffffffff", "#000000"]
        "client.urgent" "not a colour"
      = ⟨none, some ⟨color_to_rgba 0xff0000ff, color_to_rgba 0x00ff00ff,
          color_to_rgba 0x0000ffff, color_to_rgba 0xffffffff, color_to_rgba 0x000000ff⟩,
          if "client.urgent" = "client.focused_tab_title" then
            ["Warning: indicator and child_border colors have no effect for "
              ++ "client.urgent"]
          else []⟩ :=
  handle_colors_five_tokens hex_codec "client.urgent" "not a colour"
    "#ff0000ff" "#00ff00ff" "#0000ffff" "#ffffffff" "#000000"
    0xff0000ff 0x00ff00ff 0x0000ffff 0xffffffff 0x000000ff
    (by decide) (by decide) (by decide) (by decide) (by decide)

/-! ## Failure of `handle_colors` -/

theorem handle_colors_loop_error_of_mem (cdc : Codec) (ps : List property)
    (colors : border_colors) (h : ∃ p ∈ ps, cdc.parse_color p.hex = none) :
    ∃ e, handle_colors_loop cdc ps colors = .error e := by
  induction ps generalizing colors with
  | nil => simp at h
  | cons q qs ih =>
    cases hq : cdc.parse_color q.hex with
    | none =>
      exact ⟨cmd_results_new .CMD_INVALID (some ("Invalid " ++ q.name ++ " color " ++ q.hex)),
        by simp only [handle_colors_loop, hq]⟩
    | some color =>
      obtain ⟨p, hp, hnone⟩ := h
      rcases List.mem_cons.mp hp with rfl | hmem
      · rw [hq] at hnone; cases hnone
      · obtain ⟨e, he⟩ := ih (q.field.set colors (cdc.color_to_rgba color)) ⟨p, hmem, hnone⟩
        exact ⟨e, by simp [handle_colors_loop, hq, he]⟩

theorem handle_colors_loop_ok_of_forall (cdc : Codec) (ps : List property)
    (colors : border_colors) (h : ∀ p ∈ ps, (cdc.parse_color p.hex).isSome = true) :
    ∃ c, handle_colors_loop cdc ps colors = .ok c := by
  induction ps generalizing colors with
  | nil => exact ⟨colors, rfl⟩
  | cons q qs ih =>
    obtain ⟨color, hq⟩ := Option.isSome_iff_exists.mp (h q (List.mem_cons_self q qs))
    obtain ⟨c, hc⟩ := ih (q.field.set colors (cdc.color_to_rgba color))
      (fun p hp => h p (List.mem_cons_of_mem q hp))
    exact ⟨c, by simp [handle_colors_loop, hq, hc]⟩

theorem handle_colors_of_checkarg_some (cdc : Codec) (argv : List String)
    (cmd_name default_indicator : String) (e : cmd_results)
    (h : (checkarg argv.length cmd_name .EXPECTED_AT_LEAST 3).orElse
      (fun _ => checkarg argv.length cmd_name .EXPECTED_AT_MOST 5) = some e) :
    handle_colors cdc argv cmd_name default_indicator = ⟨some e, none, []⟩ := by
  simp only [handle_colors, h]

theorem handle_colors_of_checkarg_none (cdc : Codec) (argv : List String)
    (cmd_name default_indicator : String)
    (h : (checkarg argv.length cmd_name .EXPECTED_AT_LEAST 3).orElse
      (fun _ => checkarg argv.length cmd_name .EXPECTED_AT_MOST 5) = none) :
    handle_colors cdc argv cmd_name default_indicator
      = match handle_colors_loop cdc (properties argv default_indicator) border_colors.zero with
        | .error e => ⟨some e, none, handle_colors_log argv.length cmd_name⟩
        | .ok colors => ⟨none, some colors, handle_colors_log argv.length cmd_name⟩ := by
  simp only [handle_colors, h, handle_colors_log]

theorem handle_colors_checkarg_none_of_le {argc : Nat} (cmd_name : String) (h3 : 3 ≤ argc)
    (h5 : argc ≤ 5) :
    (checkarg argc cmd_name .EXPECTED_AT_LEAST 3).orElse
      (fun _ => checkarg argc cmd_name .EXPECTED_AT_MOST 5) = none := by
  simp [checkarg_at_least_eq_none cmd_name h3, checkarg_at_most_eq_none cmd_name h5]

theorem handle_colors_checkarg_le_of_none {argc : Nat} {cmd_name : String}
    (h : (checkarg argc cmd_name .EXPECTED_AT_LEAST 3).orElse
      (fun _ => checkarg argc cmd_name .EXPECTED_AT_MOST 5) = none) :
    3 ≤ argc ∧ argc ≤ 5 := by
  by_cases h3 : argc < 3
  · simp [checkarg, h3] at h
  · by_cases h5 : argc > 5
    · simp [checkarg, h3, h5] at h
    · omega

/-- The record is committed exactly when no error is returned. -/
theorem handle_colors_committed_isSome (cdc : Codec) (argv : List String)
    (cmd_name default_indicator : String) :
    (handle_colors cdc argv cmd_name default_indicator).committed.isSome
      = (handle_colors cdc argv cmd_name default_indicator).error.isNone := by
  cases h : (checkarg argv.length cmd_name .EXPECTED_AT_LEAST 3).orElse
      (fun _ => checkarg argv.length cmd_name .EXPECTED_AT_MOST 5) with
  | some e => rw [handle_colors_of_checkarg_some cdc argv cmd_name default_indicator e h]; rfl
  | none =>
    rw [handle_colors_of_checkarg_none cdc argv cmd_name default_indicator h]
    cases handle_colors_loop cdc (properties argv default_indicator) border_colors.zero <;> rfl

theorem handle_colors_committed_eq_none (cdc : Codec) (argv : List String)
    (cmd_name default_indicator : String) (e : cmd_results)
    (h : (handle_colors cdc argv cmd_name default_indicator).error = some e) :
    (handle_colors cdc argv cmd_name default_indicator).committed = none := by
  have := handle_colors_committed_isSome cdc argv cmd_name default_indicator
  rw [h] at this
  simpa using this

/-- The builder fails on a wrong token count and on any resolved token that does not decode. -/
theorem handle_colors_error_isSome (cdc : Codec) (argv : List String)
    (cmd_name default_indicator : String)
    (h : argv.length < 3 ∨ 5 < argv.length
      ∨ ∃ p ∈ properties argv default_indicator, cdc.parse_color p.hex = none) :
    ∃ e, (handle_colors cdc argv cmd_name default_indicator).error = some e := by
  cases hchk : (checkarg argv.length cmd_name .EXPECTED_AT_LEAST 3).orElse
      (fun _ => checkarg argv.length cmd_name .EXPECTED_AT_MOST 5) with
  | some e =>
    exact ⟨e, by rw [handle_colors_of_checkarg_some cdc argv cmd_name default_indicator e hchk]⟩
  | none =>
    have hle := handle_colors_checkarg_le_of_none hchk
    rcases h with h | h | h
    · omega
    · omega
    · obtain ⟨e, he⟩ := handle_colors_loop_error_of_mem cdc _ border_colors.zero h
      exact ⟨e, by rw [handle_colors_of_checkarg_none cdc argv cmd_name default_indicator hchk,
        he]⟩

/-- Claim C3. Whenever the builder fails (fewer than 3 or more than 5 tokens, or one of the five
resolved tokens of the `properties` table does not decode, whichever row it is),
`handle_command` returns the failure of `handle_colors` and the record of the class in
`config->border_colors` is what it was before the call. -/
theorem handle_command_failure_keeps_global (cdc : Codec) (argv : List String)
    (cmd_name : String) (cls : border_color_class) (default_indicator : String) (s : State)
    (h : argv.length < 3 ∨ 5 < argv.length
      ∨ ∃ p ∈ properties argv default_indicator, cdc.parse_color p.hex = none) :
    ∃ e, (handle_colors cdc argv cmd_name default_indicator).error = some e
      ∧ (handle_command cdc argv cmd_name cls default_indicator s).1 = some e
      ∧ (handle_command cdc argv cmd_name cls default_indicator s).2.config.border_colors cls
          = s.config.border_colors cls := by
  obtain ⟨e, he⟩ := handle_colors_error_isSome cdc argv cmd_name default_indicator h
  have hc := handle_colors_committed_eq_none cdc argv cmd_name default_indicator e he
  refine ⟨e, he, ?_, ?_⟩ <;> simp [handle_command, he, hc]

/-- Claim C3 at `client.urgent #ff0000ff bad-token #0000ffff` on the initial state: the first
token decodes, the second does not. -/
theorem handle_command_failure_keeps_global_witness :
    ∃ e, (handle_colors hex_codec ["#ff0000ff", "bad-token", "#0000ffff"] "client.urgent"
          "#900000ff").error = some e
      ∧ (handle_command hex_codec ["#ff0000ff", "bad-token", "#0000ffff"] "client.urgent"
          .urgent "#900000ff" State.initial).1 = some e
      ∧ (handle_command hex_codec ["#ff0000ff", "bad-token", "#0000ffff"] "client.urgent"
          .urgent "#900000ff" State.initial).2.config.border_colors .urgent
          = State.initial.config.border_colors .urgent :=
  handle_command_failure_keeps_global hex_codec ["#ff0000ff", "bad-token", "#0000ffff"]
    "client.urgent" .urgent "#900000ff" State.initial
    (Or.inr (Or.inr ⟨⟨"background", "bad-token", .background⟩, by decide, by decide⟩))

/-! ## Entity-scoped mutation -/

theorem State.refresh_heap (s : State) : s.refresh.heap = s.heap := by
  unfold State.refresh; split <;> rfl

theorem State.refresh_containers (s : State) : s.refresh.containers = s.containers := by
  unfold State.refresh; split <;> rfl

theorem State.refresh_config (s : State) : s.refresh.config = s.config := by
  unfold State.refresh; split <;> rfl

theorem State.refresh_log (s : State) : s.refresh.log = s.log := by
  unfold State.refresh; split <;> rfl

theorem State.refresh_refreshes (s : State) :
    s.refresh.refreshes = s.refreshes + (if s.config.active = true then 1 else 0) := by
  unfold State.refresh; split <;> rfl

/-- The path of `handle_container_command` that runs the builder on an existing override and
sees it fail: the error is returned after `free (newclass)`, and the slot is not touched. -/
theorem handle_container_command_failure_of_override (cdc : Codec) (argv : List String)
    (cmd_name : String) (con : Nat) (cls : border_color_class) (default_indicator : String)
    (s : State) (p : Nat) (e : cmd_results)
    (hslot : (s.containers con).border_colors cls = some p)
    (hne : argv ≠ []) (hfirst : argv.getD 0 "" ≠ "default")
    (hfail : (handle_colors cdc argv cmd_name default_indicator).error = some e) :
    handle_container_command cdc argv cmd_name con cls default_indicator s
      = (some e, { s with
          heap := s.heap.free p
          log := s.log ++ (handle_colors cdc argv cmd_name default_indicator).log }) := by
  have hlen : 1 ≤ argv.length := by
    cases argv with
    | nil => exact absurd rfl hne
    | cons a as => simp
  have hc := handle_colors_committed_eq_none cdc argv cmd_name default_indicator e hfail
  simp only [handle_container_command, checkarg_at_least_eq_none cmd_name hlen, hfirst,
    if_false, hslot, hfail, hc]

/-- Claim C4, evaluated. Container `0` holds a live override for `urgent` at address `0`; the
entity-scoped `client.urgent bad-token #00ff00ff #0000ffff` returns the decode failure of the
border, and afterwards the record at address `0` has been freed while the slot still holds
address `0`; running the same command again then frees address `0` a second time. -/
theorem handle_container_command_failure_frees_override :
    (State.with_urgent_override.containers 0).border_colors .urgent = some 0
      ∧ (State.with_urgent_override.heap.cells 0).isSome = true
      ∧ (handle_container_command hex_codec ["bad-token", "#00ff00ff", "#0000ffff"]
          "client.urgent" 0 .urgent "#900000ff" State.with_urgent_override).1
          = some ⟨.CMD_INVALID, some "Invalid border color bad-token"⟩
      ∧ ((handle_container_command hex_codec ["bad-token", "#00ff00ff", "#0000ffff"]
          "client.urgent" 0 .urgent "#900000ff" State.with_urgent_override).2.containers
            0).border_colors .urgent = some 0
      ∧ (handle_container_command hex_codec ["bad-token", "#00ff00ff", "#0000ffff"]
          "client.urgent" 0 .urgent "#900000ff" State.with_urgent_override).2.heap.cells 0
          = none
      ∧ (handle_container_command hex_codec ["bad-token", "#00ff00ff", "#0000ffff"]
          "client.urgent" 0 .urgent "#900000ff" State.with_urgent_override).2.heap.frees = 1
      ∧ (handle_container_command hex_codec ["bad-token", "#00ff00ff", "#0000ffff"]
          "client.urgent" 0 .urgent "#900000ff" State.with_urgent_override).2.heap.fault
          = false
      ∧ (handle_container_command hex_codec ["bad-token", "#00ff00ff", "#0000ffff"]
          "client.urgent" 0 .urgent "#900000ff"
          (handle_container_command hex_codec ["bad-token", "#00ff00ff", "#0000ffff"]
            "client.urgent" 0 .urgent "#900000ff" State.with_urgent_override).2).2.heap.fault
          = true := by
  refine ⟨by decide, by decide, by decide, by decide, by decide, by decide, by decide,
    by decide⟩

/-- Claim C5. The slot of the class is absent and the builder is reached (at least one
argument, the first not `default`) and fails (wrong token count or a resolved token that does
not decode). Then the slot is still absent and no container or fault flag has changed; when
`calloc` succeeded the failure of `handle_colors` is returned, one record was allocated and one
freed, and the address handed out holds no record; when `calloc` failed the allocation failure
is returned and nothing was allocated or freed. -/
theorem handle_container_command_failure_absent (cdc : Codec) (argv : List String)
    (cmd_name : String) (con : Nat) (cls : border_color_class) (default_indicator : String)
    (s : State)
    (hslot : (s.containers con).border_colors cls = none)
    (hne : argv ≠ []) (hfirst : argv.getD 0 "" ≠ "default")
    (h : argv.length < 3 ∨ 5 < argv.length
      ∨ ∃ p ∈ properties argv default_indicator, cdc.parse_color p.hex = none) :
    ((handle_container_command cdc argv cmd_name con cls default_indicator s).2.containers
        con).border_colors cls = none
      ∧ (handle_container_command cdc argv cmd_name con cls default_indicator s).2.containers
          = s.containers
      ∧ (handle_container_command cdc argv cmd_name con cls default_indicator s).2.heap.fault
          = s.heap.fault
      ∧ (if s.heap.calloc_fails.head? = some true then
          (handle_container_command cdc argv cmd_name con cls default_indicator s).1
              = some (cmd_results_new .CMD_INVALID
                  (some "Unable to allocate color configuration"))
            ∧ (handle_container_command cdc argv cmd_name con cls default_indicator
                s).2.heap.allocs = s.heap.allocs
            ∧ (handle_container_command cdc argv cmd_name con cls default_indicator
                s).2.heap.frees = s.heap.frees
            ∧ (handle_container_command cdc argv cmd_name con cls default_indicator
                s).2.heap.cells = s.heap.cells
        else
          (handle_container_command cdc argv cmd_name con cls default_indicator s).1.isSome
              = true
            ∧ (handle_container_command cdc argv cmd_name con cls default_indicator s).1
              = (handle_colors cdc argv cmd_name default_indicator).error
            ∧ (handle_container_command cdc argv cmd_name con cls default_indicator
                s).2.heap.allocs = s.heap.allocs + 1
            ∧ (handle_container_command cdc argv cmd_name con cls default_indicator
                s).2.heap.frees = s.heap.frees + 1
            ∧ (handle_container_command cdc argv cmd_name con cls default_indicator
                s).2.heap.cells = Function.update s.heap.cells s.heap.next none) := by
  obtain ⟨e, he⟩ := handle_colors_error_isSome cdc argv cmd_name default_indicator h
  have hc := handle_colors_committed_eq_none cdc argv cmd_name default_indicator e he
  have hlen : 1 ≤ argv.length := by
    cases argv with
    | nil => exact absurd rfl hne
    | cons a as => simp
  simp only [handle_container_command, checkarg_at_least_eq_none cmd_name hlen, hfirst,
    if_false, hslot, he, hc]
  by_cases hoom : s.heap.calloc_fails.head? = some true
  · simp [Heap.calloc, hoom, hslot]
  · simp [Heap.calloc, hoom, Heap.free, hslot]

/-- Claim C5 at the entity-scoped `client.urgent bad-token #00ff00ff #0000ffff` on container
`0` of the initial state, which has no override and whose `calloc` succeeds. -/
theorem handle_container_command_failure_absent_witness :
    ((handle_container_command hex_codec ["bad-token", "#00ff00ff", "#0000ffff"]
        "client.urgent" 0 .urgent "#900000ff" State.initial).2.containers
          0).border_colors .urgent = none
      ∧ (handle_container_command hex_codec ["bad-token", "#00ff00ff", "#0000ffff"]
          "client.urgent" 0 .urgent "#900000ff" State.initial).1
          = (handle_colors hex_codec ["bad-token", "#00ff00ff", "#0000ffff"] "client.urgent"
              "#900000ff").error
      ∧ (handle_container_command hex_codec ["bad-token", "#00ff00ff", "#0000ffff"]
          "client.urgent" 0 .urgent "#900000ff" State.initial).2.heap.allocs
          = State.initial.heap.allocs + 1
      ∧ (handle_container_command hex_codec ["bad-token", "#00ff00ff", "#0000ffff"]
          "client.urgent" 0 .urgent "#900000ff" State.initial).2.heap.frees
          = State.initial.heap.frees + 1 := by
  have h := handle_container_command_failure_absent hex_codec
    ["bad-token", "#00ff00ff", "#0000ffff"] "client.urgent" 0 .urgent "#900000ff"
    State.initial rfl (by decide) (by decide)
    (Or.inr (Or.inr ⟨⟨"border", "bad-token", .border⟩, by decide, by decide⟩))
  have hoom : ¬ State.initial.heap.calloc_fails.head? = some true := by decide
  rw [if_neg hoom] at h
  exact ⟨h.1, h.2.2.2.2.1, h.2.2.2.2.2.1, h.2.2.2.2.2.2.1⟩

/-- Claim C6. The entity-scoped command with the single argument `default` returns no error and
leaves the slot of the class absent. If the slot held a record, that record is passed to `free`
once (one more free, no allocation, the address holds no record afterwards); if the slot was
absent, the heap and every container are what they were. -/
theorem handle_container_command_default (cdc : Codec) (cmd_name : String) (con : Nat)
    (cls : border_color_class) (default_indicator : String) (s : State) :
    (handle_container_command cdc ["default"] cmd_name con cls default_indicator s).1 = none
      ∧ ((handle_container_command cdc ["default"] cmd_name con cls default_indicator
          s).2.containers con).border_colors cls = none
      ∧ (match (s.containers con).border_colors cls with
        | some p =>
          (handle_container_command cdc ["default"] cmd_name con cls default_indicator
              s).2.heap = s.heap.free p
            ∧ (handle_container_command cdc ["default"] cmd_name con cls default_indicator
                s).2.heap.frees = s.heap.frees + 1
            ∧ (handle_container_command cdc ["default"] cmd_name con cls default_indicator
                s).2.heap.allocs = s.heap.allocs
            ∧ (handle_container_command cdc ["default"] cmd_name con cls default_indicator
                s).2.heap.cells p = none
        | none =>
          (handle_container_command cdc ["default"] cmd_name con cls default_indicator
              s).2.heap = s.heap
            ∧ (handle_container_command cdc ["default"] cmd_name con cls default_indicator
                s).2.containers = s.containers) := by
  have h1 : checkarg 1 cmd_name .EXPECTED_AT_LEAST 1 = none :=
    checkarg_at_least_eq_none cmd_name (Nat.le_refl 1)
  have h2 : checkarg 1 cmd_name .EXPECTED_AT_MOST 1 = none :=
    checkarg_at_most_eq_none cmd_name (Nat.le_refl 1)
  have hd : (["default"] : List String).getD 0 "" = "default" := rfl
  simp only [handle_container_command, List.length_singleton, h1, h2, hd, if_true]
  cases hslot : (s.containers con).border_colors cls with
  | none => simp [hslot, State.refresh_heap, State.refresh_containers]
  | some p =>
    simp [State.refresh_heap, State.refresh_containers, State.set_override, Heap.free]

/-! ## Success of `handle_colors` -/

/-- On 3 to 5 tokens that all decode (and, with exactly 3, a default indicator string that
decodes) `handle_colors` commits a record whose five colours are the decodes of the resolved
tokens. -/
theorem handle_colors_success (cdc : Codec) (tokens : List String)
    (cmd_name default_indicator : String)
    (h3 : 3 ≤ tokens.length) (h5 : tokens.length ≤ 5)
    (hdec : ∀ t ∈ tokens, (cdc.parse_color t).isSome = true)
    (hd : tokens.length = 3 → (cdc.parse_color default_indicator).isSome = true) :
    ∃ colors : border_colors,
      handle_colors cdc tokens cmd_name default_indicator
          = ⟨none, some colors, handle_colors_log tokens.length cmd_name⟩
        ∧ cdc.decode (tokens.getD 0 "") = some colors.border
        ∧ cdc.decode (tokens.getD 1 "") = some colors.background
        ∧ cdc.decode (tokens.getD 2 "") = some colors.text
        ∧ cdc.decode (tokens.getD 3 default_indicator) = some colors.indicator
        ∧ cdc.decode (tokens.getD 4 (tokens.getD 1 "")) = some colors.child_border := by
  rcases tokens with _ | ⟨t0, _ | ⟨t1, _ | ⟨t2, _ | ⟨t3, _ | ⟨t4, _ | ⟨t5, rest⟩⟩⟩⟩⟩⟩
  · simp at h3
  · simp at h3
  · simp at h3
  · obtain ⟨n0, h0⟩ := Option.isSome_iff_exists.mp (hdec t0 (by simp))
    obtain ⟨n1, h1⟩ := Option.isSome_iff_exists.mp (hdec t1 (by simp))
    obtain ⟨n2, h2⟩ := Option.isSome_iff_exists.mp (hdec t2 (by simp))
    obtain ⟨nd, hnd⟩ := Option.isSome_iff_exists.mp (hd rfl)
    refine ⟨⟨cdc.color_to_rgba n0, cdc.color_to_rgba n1, cdc.color_to_rgba n2,
      cdc.color_to_rgba nd, cdc.color_to_rgba n1⟩, ?_⟩
    simp [handle_colors, handle_colors_log, checkarg, properties, handle_colors_loop, h0, h1,
      h2, hnd, colors_field.set, border_colors.zero, Codec.decode]
  · obtain ⟨n0, h0⟩ := Option.isSome_iff_exists.mp (hdec t0 (by simp))
    obtain ⟨n1, h1⟩ := Option.isSome_iff_exists.mp (hdec t1 (by simp))
    obtain ⟨n2, h2⟩ := Option.isSome_iff_exists.mp (hdec t2 (by simp))
    obtain ⟨n3, h3'⟩ := Option.isSome_iff_exists.mp (hdec t3 (by simp))
    refine ⟨⟨cdc.color_to_rgba n0, cdc.color_to_rgba n1, cdc.color_to_rgba n2,
      cdc.color_to_rgba n3, cdc.color_to_rgba n1⟩, ?_⟩
    simp [handle_colors, handle_colors_log, checkarg, properties, handle_colors_loop, h0, h1,
      h2, h3', colors_field.set, border_colors.zero, Codec.decode]
  · obtain ⟨n0, h0⟩ := Option.isSome_iff_exists.mp (hdec t0 (by simp))
    obtain ⟨n1, h1⟩ := Option.isSome_iff_exists.mp (hdec t1 (by simp))
    obtain ⟨n2, h2⟩ := Option.isSome_iff_exists.mp (hdec t2 (by simp))
    obtain ⟨n3, h3'⟩ := Option.isSome_iff_exists.mp (hdec t3 (by simp))
    obtain ⟨n4, h4⟩ := Option.isSome_iff_exists.mp (hdec t4 (by simp))
    refine ⟨⟨cdc.color_to_rgba n0, cdc.color_to_rgba n1, cdc.color_to_rgba n2,
      cdc.color_to_rgba n3, cdc.color_to_rgba n4⟩, ?_⟩
    simp [handle_colors, handle_colors_log, checkarg, properties, handle_colors_loop, h0, h1,
      h2, h3', h4, colors_field.set, border_colors.zero, Codec.decode]
  · simp at h5

/-! ## Scope selection -/

/-- Claim C7. Whatever container is in context (or none), `handle_command_context` called with
`global` followed by 3 to 5 tokens that all decode (and, with exactly 3, a default indicator
string that decodes) returns success, stores in `config->border_colors[class]` the record that
`handle_colors` builds from the tokens after the keyword (border, background and text from
tokens 0 to 2, indicator from token 3 or else the default, child border from token 4 or else
token 1), and leaves every container and the heap of override records as they were. -/
theorem handle_command_context_global (cdc : Codec) (tokens : List String) (cmd_name : String)
    (cls : border_color_class) (con : Option Nat) (default_indicator : String) (s : State)
    (h3 : 3 ≤ tokens.length) (h5 : tokens.length ≤ 5)
    (hdec : ∀ t ∈ tokens, (cdc.parse_color t).isSome = true)
    (hd : tokens.length = 3 → (cdc.parse_color default_indicator).isSome = true) :
    (handle_command_context cdc ("global" :: tokens) cmd_name cls con default_indicator s).1
        = cmd_results_new .CMD_SUCCESS none
      ∧ (handle_command_context cdc ("global" :: tokens) cmd_name cls con default_indicator
          s).2.containers = s.containers
      ∧ (handle_command_context cdc ("global" :: tokens) cmd_name cls con default_indicator
          s).2.heap = s.heap
      ∧ (handle_colors cdc tokens cmd_name default_indicator).committed
          = some ((handle_command_context cdc ("global" :: tokens) cmd_name cls con
              default_indicator s).2.config.border_colors cls)
      ∧ cdc.decode (tokens.getD 0 "")
          = some ((handle_command_context cdc ("global" :: tokens) cmd_name cls con
              default_indicator s).2.config.border_colors cls).border
      ∧ cdc.decode (tokens.getD 1 "")
          = some ((handle_command_context cdc ("global" :: tokens) cmd_name cls con
              default_indicator s).2.config.border_colors cls).background
      ∧ cdc.decode (tokens.getD 2 "")
          = some ((handle_command_context cdc ("global" :: tokens) cmd_name cls con
              default_indicator s).2.config.border_colors cls).text
      ∧ cdc.decode (tokens.getD 3 default_indicator)
          = some ((handle_command_context cdc ("global" :: tokens) cmd_name cls con
              default_indicator s).2.config.border_colors cls).indicator
      ∧ cdc.decode (tokens.getD 4 (tokens.getD 1 ""))
          = some ((handle_command_context cdc ("global" :: tokens) cmd_name cls con
              default_indicator s).2.config.border_colors cls).child_border := by
  obtain ⟨colors, hc, hb, hbg, ht, hi, hcb⟩ :=
    handle_colors_success cdc tokens cmd_name default_indicator h3 h5 hdec hd
  have hlen : 1 ≤ ("global" :: tokens).length := by simp
  have hg : ("global" :: tokens).getD 0 "" = "global" := rfl
  have hrun : handle_command_context cdc ("global" :: tokens) cmd_name cls con
      default_indicator s
      = (cmd_results_new .CMD_SUCCESS none,
          (({ s with log := s.log ++ handle_colors_log tokens.length cmd_name } :
            State).set_global cls colors).refresh) := by
    simp only [handle_command_context, checkarg_at_least_eq_none cmd_name hlen, hg, if_true,
      List.tail_cons, handle_command, hc]
  rw [hrun, hc]
  simp only [State.refresh_containers, State.refresh_heap, State.refresh_config,
    State.set_global, Function.update_same]
  exact ⟨trivial, trivial, trivial, trivial, hb, hbg, ht, hi, hcb⟩

/-- Claim C7 at `global #ff0000ff #00ff00ff #0000ffff` for the class `urgent`, with container
`0` in context and holding an override. -/
theorem handle_command_context_global_witness :
    (handle_command_context hex_codec ["global", "#ff0000ff", "#00ff00ff", "#0000ffff"]
        "client.urgent" .urgent (some 0) "#900000ff" State.with_urgent_override).1
        = cmd_results_new .CMD_SUCCESS none
      ∧ (handle_command_context hex_codec ["global", "#ff0000ff", "#00ff00ff", "#0000ffff"]
          "client.urgent" .urgent (some 0) "#900000ff" State.with_urgent_override).2.containers
          = State.with_urgent_override.containers :=
  have h := handle_command_context_global hex_codec ["#ff0000ff", "#00ff00ff", "#0000ffff"]
    "client.urgent" .urgent (some 0) "#900000ff" State.with_urgent_override
    (by decide) (by decide) (by decide) (by decide)
  ⟨h.1, h.2.1⟩

/-! ## Results returned on failure -/

theorem checkarg_status {argc val : Nat} {name : String} {type : expected_args}
    {e : cmd_results} (h : checkarg argc name type val = some e) :
    e.status = .CMD_INVALID := by
  cases type <;> simp only [checkarg] at h <;> split at h <;> cases h <;> rfl

theorem handle_colors_loop_error_status (cdc : Codec) (ps : List property)
    (colors : border_colors) (e : cmd_results)
    (h : handle_colors_loop cdc ps colors = .error e) : e.status = .CMD_INVALID := by
  induction ps generalizing colors with
  | nil => cases h
  | cons q qs ih =>
    cases hq : cdc.parse_color q.hex with
    | none =>
      simp only [handle_colors_loop, hq] at h
      cases h
      rfl
    | some color =>
      simp only [handle_colors_loop, hq] at h
      exact ih _ h

/-- Every result that `handle_colors` returns has the status `CMD_INVALID`. -/
theorem handle_colors_error_status (cdc : Codec) (argv : List String)
    (cmd_name default_indicator : String) (e : cmd_results)
    (h : (handle_colors cdc argv cmd_name default_indicator).error = some e) :
    e.status = .CMD_INVALID := by
  cases hchk : (checkarg argv.length cmd_name .EXPECTED_AT_LEAST 3).orElse
      (fun _ => checkarg argv.length cmd_name .EXPECTED_AT_MOST 5) with
  | some e' =>
    rw [handle_colors_of_checkarg_some cdc argv cmd_name default_indicator e' hchk] at h
    cases h
    cases h3 : checkarg argv.length cmd_name .EXPECTED_AT_LEAST 3 with
    | some e3 =>
      rw [h3] at hchk
      cases hchk
      exact checkarg_status h3
    | none =>
      rw [h3] at hchk
      have h5 : checkarg argv.length cmd_name .EXPECTED_AT_MOST 5 = some e := hchk
      exact checkarg_status h5
  | none =>
    rw [handle_colors_of_checkarg_none cdc argv cmd_name default_indicator hchk] at h
    cases hl : handle_colors_loop cdc (properties argv default_indicator) border_colors.zero with
    | error e' =>
      rw [hl] at h
      cases h
      exact handle_colors_loop_error_status cdc _ _ _ hl
    | ok colors =>
      rw [hl] at h
      cases h

/-- The pointer that `handle_command` returns is that of `handle_colors`. -/
theorem handle_command_fst (cdc : Codec) (argv : List String) (cmd_name : String)
    (cls : border_color_class) (default_indicator : String) (s : State) :
    (handle_command cdc argv cmd_name cls default_indicator s).1
      = (handle_colors cdc argv cmd_name default_indicator).error := by
  simp only [handle_command]
  cases (handle_colors cdc argv cmd_name default_indicator).error <;> rfl

/-- The entry point `cmd_client_focused_tab_title` never changes
`config->has_focused_tab_title`: `handle_command` returns either a null pointer or a result
with the status `CMD_INVALID`. -/
theorem cmd_client_focused_tab_title_flag_unchanged (cdc : Codec) (argv : List String)
    (s : State) :
    (cmd_client_focused_tab_title cdc argv s).2.config.has_focused_tab_title
      = s.config.has_focused_tab_title := by
  have hflag : (handle_command cdc argv "client.focused_tab_title" .focused_tab_title
      "#2e9ef4ff" s).2.config.has_focused_tab_title = s.config.has_focused_tab_title := by
    simp only [handle_command]
    cases (handle_colors cdc argv "client.focused_tab_title" "#2e9ef4ff").error <;>
      cases (handle_colors cdc argv "client.focused_tab_title" "#2e9ef4ff").committed <;>
      simp [State.refresh_config, State.set_global]
  unfold cmd_client_focused_tab_title
  cases hr : (handle_command cdc argv "client.focused_tab_title" .focused_tab_title
      "#2e9ef4ff" s).1 with
  | none => simpa [hr] using hflag
  | some r =>
    have hst : r.status = .CMD_INVALID := by
      rw [handle_command_fst] at hr
      exact handle_colors_error_status cdc argv _ _ r hr
    simpa [hr, hst] using hflag

/-- Claim C8, evaluated. On the initial state, where `config->has_focused_tab_title` is false,
`client.focused_tab_title #ff0000ff #00ff00ff #0000ffff #ffffffff` succeeds: the call returns a
null pointer, stores the new record in the global table, logs its warning and refreshes the
tree. The flag is still false afterwards. -/
theorem cmd_client_focused_tab_title_flag_not_set :
    State.initial.config.has_focused_tab_title = false
      ∧ (cmd_client_focused_tab_title hex_codec
          ["#ff0000ff", "#00ff00ff", "#0000ffff", "#ffffffff"] State.initial).1 = none
      ∧ (handle_colors hex_codec ["#ff0000ff", "#00ff00ff", "#0000ffff", "#ffffffff"]
          "client.focused_tab_title" "#2e9ef4ff").committed
          = some ((cmd_client_focused_tab_title hex_codec
              ["#ff0000ff", "#00ff00ff", "#0000ffff", "#ffffffff"]
              State.initial).2.config.border_colors .focused_tab_title)
      ∧ (cmd_client_focused_tab_title hex_codec
          ["#ff0000ff", "#00ff00ff", "#0000ffff", "#ffffffff"] State.initial).2.refreshes = 1
      ∧ (cmd_client_focused_tab_title hex_codec
          ["#ff0000ff", "#00ff00ff", "#0000ffff", "#ffffffff"] State.initial).2.log
          = ["Warning: indicator and child_border colors have no effect for "
              ++ "client.focused_tab_title"]
      ∧ (cmd_client_focused_tab_title hex_codec
          ["#ff0000ff", "#00ff00ff", "#0000ffff", "#ffffffff"]
          State.initial).2.config.has_focused_tab_title = false := by
  refine ⟨rfl, by decide, by rfl, by decide, by decide, by decide⟩

/-! ## The refresh -/

/-- Claim C9. Both `handle_command` and `handle_container_command` (the `default` reset
included) call the tree-wide refresh exactly once when they return no error and
`config->active` is set, and not at all when they return an error or the flag is clear. -/
theorem refresh_once_iff_success_and_active (cdc : Codec) (argv : List String)
    (cmd_name : String) (con : Nat) (cls : border_color_class) (default_indicator : String)
    (s : State) :
    (handle_command cdc argv cmd_name cls default_indicator s).2.refreshes
        = s.refreshes
          + (if (handle_command cdc argv cmd_name cls default_indicator s).1 = none
                ∧ s.config.active = true then 1 else 0)
      ∧ (handle_container_command cdc argv cmd_name con cls default_indicator s).2.refreshes
        = s.refreshes
          + (if (handle_container_command cdc argv cmd_name con cls default_indicator s).1
                  = none ∧ s.config.active = true then 1 else 0) := by
  constructor
  · have key : ∀ (r : colors_outcome) (x : Option cmd_results × State),
        x = (match r.error with
          | some error =>
            (some error, match r.committed with
              | some colors => ({ s with log := s.log ++ r.log } : State).set_global cls colors
              | none => { s with log := s.log ++ r.log })
          | none =>
            (none, (match r.committed with
              | some colors => ({ s with log := s.log ++ r.log } : State).set_global cls colors
              | none => { s with log := s.log ++ r.log }).refresh)) →
        x.2.refreshes = s.refreshes + (if x.1 = none ∧ s.config.active = true then 1 else 0) := by
      intro r x hx
      subst hx
      rcases r with ⟨_ | e, _ | c, l⟩ <;> simp [State.refresh_refreshes, State.set_global]
    exact key (handle_colors cdc argv cmd_name default_indicator) _ rfl
  · have key : ∀ (r : colors_outcome) (c1 c2 : Option cmd_results)
        (x : Option cmd_results × State),
        handle_colors cdc argv cmd_name default_indicator = r →
        checkarg argv.length cmd_name .EXPECTED_AT_LEAST 1 = c1 →
        checkarg argv.length cmd_name .EXPECTED_AT_MOST 1 = c2 →
        handle_container_command cdc argv cmd_name con cls default_indicator s = x →
        x.2.refreshes = s.refreshes + (if x.1 = none ∧ s.config.active = true then 1 else 0) := by
      intro r c1 c2 x hr h1 h2 hx
      subst hx
      simp only [handle_container_command, hr, h1, h2]
      rcases c1 with _ | e1
      · by_cases hfirst : argv.getD 0 "" = "default"
        · simp only [hfirst, if_true]
          rcases c2 with _ | e2
          · cases (s.containers con).border_colors cls <;>
              simp [State.refresh_refreshes, State.set_override]
          · simp
        · simp only [hfirst, if_false]
          cases hslot : (s.containers con).border_colors cls with
          | some p =>
            rcases r with ⟨_ | e, _ | c, l⟩ <;>
              simp [State.refresh_refreshes, State.set_override, hslot]
          | none =>
            by_cases hoom : s.heap.calloc_fails.head? = some true
            · simp [Heap.calloc, hoom]
            · rcases r with ⟨_ | e, _ | c, l⟩ <;>
                simp [Heap.calloc, hoom, State.refresh_refreshes, State.set_override, hslot]
      · simp
    exact key _ _ _ _ rfl rfl rfl rfl

/-! ## The count check of `handle_colors` -/

/-- Claim C10. With fewer than 3 tokens `handle_colors` returns the failure of the
at-least-3 check, and with more than 5 that of the at-most-5 check; in both cases nothing is
committed to the target, nothing is logged, and the outcome is the same for every codec, so no
token is decoded. With 3 to 5 tokens both checks pass and the outcome is that of the decoding
loop over the `properties` table. -/
theorem handle_colors_arity (cdc : Codec) (argv : List String)
    (cmd_name default_indicator : String) :
    (argv.length < 3 →
        (checkarg argv.length cmd_name .EXPECTED_AT_LEAST 3).isSome = true
          ∧ ∀ cdc' : Codec, handle_colors cdc' argv cmd_name default_indicator
              = ⟨checkarg argv.length cmd_name .EXPECTED_AT_LEAST 3, none, []⟩)
      ∧ (5 < argv.length →
        (checkarg argv.length cmd_name .EXPECTED_AT_MOST 5).isSome = true
          ∧ ∀ cdc' : Codec, handle_colors cdc' argv cmd_name default_indicator
              = ⟨checkarg argv.length cmd_name .EXPECTED_AT_MOST 5, none, []⟩)
      ∧ (3 ≤ argv.length → argv.length ≤ 5 →
        checkarg argv.length cmd_name .EXPECTED_AT_LEAST 3 = none
          ∧ checkarg argv.length cmd_name .EXPECTED_AT_MOST 5 = none
          ∧ handle_colors cdc argv cmd_name default_indicator
              = match handle_colors_loop cdc (properties argv default_indicator)
                  border_colors.zero with
                | .error e => ⟨some e, none, handle_colors_log argv.length cmd_name⟩
                | .ok colors => ⟨none, some colors, handle_colors_log argv.length cmd_name⟩) := by
  refine ⟨fun h => ?_, fun h => ?_, fun h3 h5 => ?_⟩
  · obtain ⟨e, he⟩ := Option.isSome_iff_exists.mp (checkarg_at_least_isSome cmd_name h)
    refine ⟨checkarg_at_least_isSome cmd_name h, fun cdc' => ?_⟩
    rw [he]
    exact handle_colors_of_checkarg_some cdc' argv cmd_name default_indicator e (by simp [he])
  · obtain ⟨e, he⟩ := Option.isSome_iff_exists.mp (checkarg_at_most_isSome cmd_name h)
    have h3 : checkarg argv.length cmd_name .EXPECTED_AT_LEAST 3 = none :=
      checkarg_at_least_eq_none cmd_name (by omega)
    refine ⟨checkarg_at_most_isSome cmd_name h, fun cdc' => ?_⟩
    rw [he]
    exact handle_colors_of_checkarg_some cdc' argv cmd_name default_indicator e
      (by simp [h3, he])
  · exact ⟨checkarg_at_least_eq_none cmd_name h3, checkarg_at_most_eq_none cmd_name h5,
      handle_colors_of_checkarg_none cdc argv cmd_name default_indicator
        (handle_colors_checkarg_none_of_le cmd_name h3 h5)⟩

/-- Claim C10 at the lists `#ff0000ff #00ff00ff` (too short), six tokens (too long) and
`#ff0000ff #00ff00ff #0000ffff` (accepted), with the codec of the spec. -/
theorem handle_colors_arity_witness :
    (∀ cdc' : Codec, handle_colors cdc' ["#ff0000ff", "#00ff00ff"] "client.focused" "#2e9ef4ff"
        = ⟨checkarg 2 "client.focused" .EXPECTED_AT_LEAST 3, none, []⟩)
      ∧ (∀ cdc' : Codec, handle_colors cdc' ["a", "b", "c", "d", "e", "f"] "client.focused"
          "#2e9ef4ff" = ⟨checkarg 6 "client.focused" .EXPECTED_AT_MOST 5, none, []⟩)
      ∧ checkarg 3 "client.focused" .EXPECTED_AT_LEAST 3 = none
      ∧ checkarg 3 "client.focused" .EXPECTED_AT_MOST 5 = none :=
  ⟨((handle_colors_arity hex_codec ["#ff0000ff", "#00ff00ff"] "client.focused"
      "#2e9ef4ff").1 (by decide)).2,
    ((handle_colors_arity hex_codec ["a", "b", "c", "d", "e", "f"] "client.focused"
      "#2e9ef4ff").2.1 (by decide)).2,
    ((handle_colors_arity hex_codec ["#ff0000ff", "#00ff00ff", "#0000ffff"] "client.focused"
      "#2e9ef4ff").2.2 (by decide) (by decide)).1,
    ((handle_colors_arity hex_codec ["#ff0000ff", "#00ff00ff", "#0000ffff"] "client.focused"
      "#2e9ef4ff").2.2 (by decide) (by decide)).2.1⟩

/-! ## Reuse of an existing override -/

theorem length_pos_of_ne_nil {argv : List String} (hne : argv ≠ []) : 1 ≤ argv.length := by
  cases argv with
  | nil => exact absurd rfl hne
  | cons a as => simp

/-- The path of `handle_container_command` that runs the builder on an existing override and
sees it succeed: the record is copied over the existing one and the slot is not touched. -/
theorem handle_container_command_success_of_override (cdc : Codec) (argv : List String)
    (cmd_name : String) (con : Nat) (cls : border_color_class) (default_indicator : String)
    (s : State) (p : Nat) (colors : border_colors)
    (hslot : (s.containers con).border_colors cls = some p)
    (hne : argv ≠ []) (hfirst : argv.getD 0 "" ≠ "default")
    (herr : (handle_colors cdc argv cmd_name default_indicator).error = none)
    (hc : (handle_colors cdc argv cmd_name default_indicator).committed = some colors) :
    handle_container_command cdc argv cmd_name con cls default_indicator s
      = (none, ({ s with
          heap := s.heap.memcpy p colors
          log := s.log ++ (handle_colors cdc argv cmd_name default_indicator).log } :
            State).refresh) := by
  simp only [handle_container_command, checkarg_at_least_eq_none cmd_name
    (length_pos_of_ne_nil hne), hfirst, if_false, hslot, herr, hc]

/-- The path of `handle_container_command` that allocates a record for an absent slot, sees the
builder succeed and installs the record. -/
theorem handle_container_command_success_of_absent (cdc : Codec) (argv : List String)
    (cmd_name : String) (con : Nat) (cls : border_color_class) (default_indicator : String)
    (s : State) (colors : border_colors)
    (hslot : (s.containers con).border_colors cls = none)
    (hne : argv ≠ []) (hfirst : argv.getD 0 "" ≠ "default")
    (hoom : ¬ s.heap.calloc_fails.head? = some true)
    (herr : (handle_colors cdc argv cmd_name default_indicator).error = none)
    (hc : (handle_colors cdc argv cmd_name default_indicator).committed = some colors) :
    handle_container_command cdc argv cmd_name con cls default_indicator s
      = (none, (({ s with
          heap := s.heap.calloc.2.memcpy s.heap.next colors
          log := s.log ++ (handle_colors cdc argv cmd_name default_indicator).log } :
            State).set_override con cls (some s.heap.next)).refresh) := by
  have hcal : s.heap.calloc.1 = some s.heap.next := by simp [Heap.calloc, hoom]
  simp only [handle_container_command, checkarg_at_least_eq_none cmd_name
    (length_pos_of_ne_nil hne), hfirst, if_false, hslot, herr, hc, hcal]

/-- The path of `handle_container_command` on which `calloc` returns a null pointer. -/
theorem handle_container_command_of_calloc_null (cdc : Codec) (argv : List String)
    (cmd_name : String) (con : Nat) (cls : border_color_class) (default_indicator : String)
    (s : State)
    (hslot : (s.containers con).border_colors cls = none)
    (hne : argv ≠ []) (hfirst : argv.getD 0 "" ≠ "default")
    (hoom : s.heap.calloc_fails.head? = some true) :
    handle_container_command cdc argv cmd_name con cls default_indicator s
      = (some (cmd_results_new .CMD_INVALID (some "Unable to allocate color configuration")),
          { s with heap := s.heap.calloc.2 }) := by
  have hcal : s.heap.calloc.1 = none := by simp [Heap.calloc, hoom]
  simp only [handle_container_command, checkarg_at_least_eq_none cmd_name
    (length_pos_of_ne_nil hne), hfirst, if_false, hslot, hcal]

/-- The path of `handle_container_command` that allocates a record for an absent slot and sees
the builder fail: the fresh record is freed and the error returned. -/
theorem handle_container_command_failure_of_absent (cdc : Codec) (argv : List String)
    (cmd_name : String) (con : Nat) (cls : border_color_class) (default_indicator : String)
    (s : State) (e : cmd_results)
    (hslot : (s.containers con).border_colors cls = none)
    (hne : argv ≠ []) (hfirst : argv.getD 0 "" ≠ "default")
    (hoom : ¬ s.heap.calloc_fails.head? = some true)
    (hfail : (handle_colors cdc argv cmd_name default_indicator).error = some e) :
    handle_container_command cdc argv cmd_name con cls default_indicator s
      = (some e, { s with
          heap := s.heap.calloc.2.free s.heap.next
          log := s.log ++ (handle_colors cdc argv cmd_name default_indicator).log }) := by
  have hcal : s.heap.calloc.1 = some s.heap.next := by simp [Heap.calloc, hoom]
  have hc := handle_colors_committed_eq_none cdc argv cmd_name default_indicator e hfail
  simp only [handle_container_command, checkarg_at_least_eq_none cmd_name
    (length_pos_of_ne_nil hne), hfirst, if_false, hslot, hfail, hc, hcal]

/-- With no argument at all `handle_container_command` returns the failure of its own count
check and changes nothing. -/
theorem handle_container_command_nil (cdc : Codec) (cmd_name : String) (con : Nat)
    (cls : border_color_class) (default_indicator : String) (s : State) :
    ∃ e, handle_container_command cdc [] cmd_name con cls default_indicator s = (some e, s) := by
  obtain ⟨e, he⟩ := Option.isSome_iff_exists.mp
    (checkarg_at_least_isSome cmd_name (Nat.zero_lt_one))
  exact ⟨e, by simp only [handle_container_command, List.length_nil, he]⟩

/-- When no error is returned, a record was committed. -/
theorem handle_colors_committed_of_error_none (cdc : Codec) (argv : List String)
    (cmd_name default_indicator : String)
    (h : (handle_colors cdc argv cmd_name default_indicator).error = none) :
    ∃ colors, (handle_colors cdc argv cmd_name default_indicator).committed = some colors := by
  have := handle_colors_committed_isSome cdc argv cmd_name default_indicator
  rw [h] at this
  exact Option.isSome_iff_exists.mp (by simpa using this)

/-- Either `handle_colors` returns an error and commits nothing, or it returns none and commits
a record. -/
theorem handle_colors_cases (cdc : Codec) (argv : List String)
    (cmd_name default_indicator : String) :
    (∃ e, (handle_colors cdc argv cmd_name default_indicator).error = some e
        ∧ (handle_colors cdc argv cmd_name default_indicator).committed = none)
      ∨ (∃ colors, (handle_colors cdc argv cmd_name default_indicator).error = none
        ∧ (handle_colors cdc argv cmd_name default_indicator).committed = some colors) := by
  cases he : (handle_colors cdc argv cmd_name default_indicator).error with
  | some e => exact Or.inl ⟨e, rfl, handle_colors_committed_eq_none cdc argv _ _ e he⟩
  | none =>
    obtain ⟨colors, hc⟩ := handle_colors_committed_of_error_none cdc argv _ _ he
    exact Or.inr ⟨colors, rfl, hc⟩

theorem Heap.memcpy_of_live (h : Heap) (p : Nat) (old colors : border_colors)
    (hlive : h.cells p = some old) :
    h.memcpy p colors = { h with cells := Function.update h.cells p (some colors) } := by
  simp only [Heap.memcpy, hlive]

theorem Heap.calloc_of_success (h : Heap) (hoom : ¬ h.calloc_fails.head? = some true) :
    h.calloc = (some h.next,
      { h with
        cells := Function.update h.cells h.next (some border_colors.zero)
        next := h.next + 1
        allocs := h.allocs + 1
        calloc_fails := h.calloc_fails.tail }) := by
  simp only [Heap.calloc, hoom, if_false]

theorem Heap.memcpy_calloc (h : Heap) (colors : border_colors)
    (hoom : ¬ h.calloc_fails.head? = some true) :
    h.calloc.2.memcpy h.next colors
      = { h with
          cells := Function.update h.cells h.next (some colors)
          next := h.next + 1
          allocs := h.allocs + 1
          calloc_fails := h.calloc_fails.tail } := by
  simp [Heap.calloc_of_success h hoom, Heap.memcpy]

/-- A successful entity-scoped call that is not a reset was given at least one argument. -/
theorem ne_nil_of_handle_container_command_success (cdc : Codec) (argv : List String)
    (cmd_name : String) (con : Nat) (cls : border_color_class) (default_indicator : String)
    (s : State)
    (hsucc : (handle_container_command cdc argv cmd_name con cls default_indicator s).1 = none) :
    argv ≠ [] := by
  intro hnil
  subst hnil
  obtain ⟨e, he⟩ := handle_container_command_nil cdc cmd_name con cls default_indicator s
  rw [he] at hsucc
  cases hsucc

/-- Claim C11. Take an entity-scoped call that is a mutation (first argument not `default`) and
returns no error. If the slot of the class held a live record, the slot holds the same address
afterwards, the record at that address is the one `handle_colors` built, and nothing was
allocated or freed. If the slot was absent, the same call issued a second time succeeds again,
and across both calls exactly one record was allocated and none freed: the slot holds the
address handed out by the first call, with the built record in it. -/
theorem handle_container_command_reuses_override (cdc : Codec) (argv : List String)
    (cmd_name : String) (con : Nat) (cls : border_color_class) (default_indicator : String)
    (s : State)
    (hfirst : argv.getD 0 "" ≠ "default")
    (hsucc : (handle_container_command cdc argv cmd_name con cls default_indicator s).1 = none) :
    (∀ p old, (s.containers con).border_colors cls = some p → s.heap.cells p = some old →
        ((handle_container_command cdc argv cmd_name con cls default_indicator s).2.containers
            con).border_colors cls = some p
          ∧ (handle_colors cdc argv cmd_name default_indicator).committed.isSome = true
          ∧ (handle_container_command cdc argv cmd_name con cls default_indicator
              s).2.heap.cells p = (handle_colors cdc argv cmd_name default_indicator).committed
          ∧ (handle_container_command cdc argv cmd_name con cls default_indicator
              s).2.heap.allocs = s.heap.allocs
          ∧ (handle_container_command cdc argv cmd_name con cls default_indicator
              s).2.heap.frees = s.heap.frees
          ∧ (handle_container_command cdc argv cmd_name con cls default_indicator
              s).2.heap.fault = s.heap.fault)
      ∧ ((s.containers con).border_colors cls = none →
        (handle_container_command cdc argv cmd_name con cls default_indicator
            (handle_container_command cdc argv cmd_name con cls default_indicator s).2).1 = none
          ∧ (handle_container_command cdc argv cmd_name con cls default_indicator
              s).2.heap.allocs = s.heap.allocs + 1
          ∧ (handle_container_command cdc argv cmd_name con cls default_indicator
              (handle_container_command cdc argv cmd_name con cls default_indicator
                s).2).2.heap.allocs = s.heap.allocs + 1
          ∧ (handle_container_command cdc argv cmd_name con cls default_indicator
              (handle_container_command cdc argv cmd_name con cls default_indicator
                s).2).2.heap.frees = s.heap.frees
          ∧ ((handle_container_command cdc argv cmd_name con cls default_indicator
              s).2.containers con).border_colors cls = some s.heap.next
          ∧ ((handle_container_command cdc argv cmd_name con cls default_indicator
              (handle_container_command cdc argv cmd_name con cls default_indicator
                s).2).2.containers con).border_colors cls = some s.heap.next
          ∧ (handle_container_command cdc argv cmd_name con cls default_indicator
              (handle_container_command cdc argv cmd_name con cls default_indicator
                s).2).2.heap.cells s.heap.next
              = (handle_colors cdc argv cmd_name default_indicator).committed) := by
  have hne := ne_nil_of_handle_container_command_success cdc argv cmd_name con cls
    default_indicator s hsucc
  rcases handle_colors_cases cdc argv cmd_name default_indicator with
    ⟨e, he, -⟩ | ⟨colors, herr, hc⟩
  · -- the builder failed: the call cannot have succeeded
    cases hslot : (s.containers con).border_colors cls with
    | some p =>
      rw [handle_container_command_failure_of_override cdc argv cmd_name con cls
        default_indicator s p e hslot hne hfirst he] at hsucc
      cases hsucc
    | none =>
      by_cases hoom : s.heap.calloc_fails.head? = some true
      · rw [handle_container_command_of_calloc_null cdc argv cmd_name con cls
          default_indicator s hslot hne hfirst hoom] at hsucc
        cases hsucc
      · rw [handle_container_command_failure_of_absent cdc argv cmd_name con cls
          default_indicator s e hslot hne hfirst hoom he] at hsucc
        cases hsucc
  · constructor
    · intro p old hslot hlive
      rw [handle_container_command_success_of_override cdc argv cmd_name con cls
        default_indicator s p colors hslot hne hfirst herr hc, hc]
      simp [State.refresh_containers, State.refresh_heap,
        Heap.memcpy_of_live s.heap p old colors hlive, hslot]
    · intro hslot
      by_cases hoom : s.heap.calloc_fails.head? = some true
      · rw [handle_container_command_of_calloc_null cdc argv cmd_name con cls
          default_indicator s hslot hne hfirst hoom] at hsucc
        cases hsucc
      · have h1 := handle_container_command_success_of_absent cdc argv cmd_name con cls
          default_indicator s colors hslot hne hfirst hoom herr hc
        have hcal : s.heap.calloc.2.cells s.heap.next = some border_colors.zero := by
          simp [Heap.calloc_of_success s.heap hoom]
        have hslot1 : (((handle_container_command cdc argv cmd_name con cls default_indicator
            s).2).containers con).border_colors cls = some s.heap.next := by
          rw [h1]
          simp [State.refresh_containers, State.set_override]
        have hlive1 : ((handle_container_command cdc argv cmd_name con cls default_indicator
            s).2).heap.cells s.heap.next = some colors := by
          rw [h1]
          simp [State.refresh_heap, State.set_override,
            Heap.memcpy_of_live s.heap.calloc.2 s.heap.next border_colors.zero colors hcal]
        have h2 := handle_container_command_success_of_override cdc argv cmd_name con cls
          default_indicator (handle_container_command cdc argv cmd_name con cls
            default_indicator s).2 s.heap.next colors hslot1 hne hfirst herr hc
        have hallocs1 : ((handle_container_command cdc argv cmd_name con cls default_indicator
            s).2).heap.allocs = s.heap.allocs + 1 := by
          rw [h1]
          simp [State.refresh_heap, State.set_override, Heap.memcpy_calloc s.heap colors hoom]
        have hfrees1 : ((handle_container_command cdc argv cmd_name con cls default_indicator
            s).2).heap.frees = s.heap.frees := by
          rw [h1]
          simp [State.refresh_heap, State.set_override, Heap.memcpy_calloc s.heap colors hoom]
        refine ⟨by rw [h2], hallocs1, ?_, ?_, hslot1, ?_, ?_⟩
        · rw [h2]
          simp [State.refresh_heap, Heap.memcpy_of_live _ s.heap.next colors colors hlive1,
            hallocs1]
        · rw [h2]
          simp [State.refresh_heap, Heap.memcpy_of_live _ s.heap.next colors colors hlive1,
            hfrees1]
        · rw [h2]
          simp [State.refresh_containers, hslot1]
        · rw [h2, hc]
          simp [State.refresh_heap, Heap.memcpy_of_live _ s.heap.next colors colors hlive1]

/-- Claim C11 at the entity-scoped `client.urgent #ff0000ff #00ff00ff #0000ffff` on container
`0`: once on a state where the override exists, and twice from the initial state, where it does
not. -/
theorem handle_container_command_reuses_override_witness :
    (((handle_container_command hex_codec ["#ff0000ff", "#00ff00ff", "#0000ffff"]
        "client.urgent" 0 .urgent "#900000ff" State.with_urgent_override).2.containers
          0).border_colors .urgent = some 0
      ∧ (handle_container_command hex_codec ["#ff0000ff", "#00ff00ff", "#0000ffff"]
          "client.urgent" 0 .urgent "#900000ff" State.with_urgent_override).2.heap.allocs
          = State.with_urgent_override.heap.allocs)
      ∧ (handle_container_command hex_codec ["#ff0000ff", "#00ff00ff", "#0000ffff"]
          "client.urgent" 0 .urgent "#900000ff"
          (handle_container_command hex_codec ["#ff0000ff", "#00ff00ff", "#0000ffff"]
            "client.urgent" 0 .urgent "#900000ff" State.initial).2).2.heap.allocs
          = State.initial.heap.allocs + 1 :=
  have h1 := (handle_container_command_reuses_override hex_codec
    ["#ff0000ff", "#00ff00ff", "#0000ffff"] "client.urgent" 0 .urgent "#900000ff"
    State.with_urgent_override (by decide) (by decide)).1 0 border_colors.zero rfl rfl
  have h2 := (handle_container_command_reuses_override hex_codec
    ["#ff0000ff", "#00ff00ff", "#0000ffff"] "client.urgent" 0 .urgent "#900000ff"
    State.initial (by decide) (by decide)).2 rfl
  ⟨⟨h1.1, h1.2.2.2.1⟩, h2.2.2.1⟩

/-! ## Results of the entry points -/

/-- What `handle_command_context` returns: the failure of its own count check, else the
failure of the selected mutation, else an explicit success result. -/
theorem handle_command_context_fst_of_global (cdc : Codec) (tokens : List String)
    (cmd_name : String) (cls : border_color_class) (con : Option Nat)
    (default_indicator : String) (s : State) :
    (handle_command_context cdc ("global" :: tokens) cmd_name cls con default_indicator s).1
      = match (handle_command cdc tokens cmd_name cls default_indicator s).1 with
        | some error => error
        | none => cmd_results_new .CMD_SUCCESS none := by
  have hlen : 1 ≤ ("global" :: tokens).length := by simp
  have hg : ("global" :: tokens).getD 0 "" = "global" := rfl
  simp only [handle_command_context, checkarg_at_least_eq_none cmd_name hlen, hg, if_true,
    List.tail_cons]
  cases (handle_command cdc tokens cmd_name cls default_indicator s).1 <;> rfl

/-- Claim C12, evaluated. On the initial state the command
`client.focused_tab_title #ff0000ff #00ff00ff #0000ffff`
selects a global mutation that succeeds (the record is committed and the tree
refreshed), yet `cmd_client_focused_tab_title` returns a null pointer rather than a result with
the status `CMD_SUCCESS`; the entry point `cmd_client_focused` returns the explicit success
result on the same arguments. -/
theorem cmd_client_focused_tab_title_returns_null :
    (handle_colors hex_codec ["#ff0000ff", "#00ff00ff", "#0000ffff"]
        "client.focused_tab_title" "#2e9ef4ff").error = none
      ∧ (handle_colors hex_codec ["#ff0000ff", "#00ff00ff", "#0000ffff"]
          "client.focused_tab_title" "#2e9ef4ff").committed
          = some ((cmd_client_focused_tab_title hex_codec
              ["#ff0000ff", "#00ff00ff", "#0000ffff"]
              State.initial).2.config.border_colors .focused_tab_title)
      ∧ (cmd_client_focused_tab_title hex_codec ["#ff0000ff", "#00ff00ff", "#0000ffff"]
          State.initial).2.refreshes = 1
      ∧ (cmd_client_focused_tab_title hex_codec ["#ff0000ff", "#00ff00ff", "#0000ffff"]
          State.initial).1 = none
      ∧ (cmd_client_focused hex_codec ["#ff0000ff", "#00ff00ff", "#0000ffff"]
          State.initial).1 = cmd_results_new .CMD_SUCCESS none := by
  refine ⟨by decide, by rfl, by decide, by decide, by decide⟩

/-! ## The field named by a decode failure -/

theorem handle_colors_loop_of_find (cdc : Codec) (ps : List property) (colors : border_colors)
    (p : property) (h : ps.find? (fun q => (cdc.parse_color q.hex).isNone) = some p) :
    handle_colors_loop cdc ps colors
      = .error (cmd_results_new .CMD_INVALID
          (some ("Invalid " ++ p.name ++ " color " ++ p.hex))) := by
  induction ps generalizing colors with
  | nil => simp at h
  | cons q qs ih =>
    cases hq : cdc.parse_color q.hex with
    | none =>
      simp only [List.find?, hq, Option.isNone_none] at h
      cases h
      simp only [handle_colors_loop, hq]
    | some color =>
      simp only [List.find?, hq, Option.isNone_some] at h
      simp only [handle_colors_loop, hq]
      exact ih _ h

/-- Two messages whose fixed openings differ within their first `n` characters differ. -/
theorem append_ne_of_take_ne (P Q x y : String) (n : Nat) (hP : n ≤ P.data.length)
    (hQ : n ≤ Q.data.length) (hne : P.data.take n ≠ Q.data.take n) : P ++ x ≠ Q ++ y := by
  intro h
  apply hne
  have h' := congrArg (fun s : String => s.data.take n) h
  simpa only [String.data_append, List.take_append_of_le_length hP,
    List.take_append_of_le_length hQ] using h'

/-- A message determines what follows its fixed opening. -/
theorem append_left_cancel (P x y : String) (h : P ++ x = P ++ y) : x = y := by
  have h' := congrArg String.data h
  simp only [String.data_append, List.append_cancel_left_eq] at h'
  exact String.ext h'

/-- The outcome of `handle_colors` on 3 to 5 tokens, written out row by row. -/
theorem handle_colors_rows (cdc : Codec) (argv : List String)
    (cmd_name default_indicator : String) (h3 : 3 ≤ argv.length) (h5 : argv.length ≤ 5) :
    handle_colors cdc argv cmd_name default_indicator
      = match cdc.parse_color (argv.getD 0 "") with
        | none =>
          ⟨some ⟨.CMD_INVALID, some ("Invalid border color " ++ argv.getD 0 "")⟩, none,
            handle_colors_log argv.length cmd_name⟩
        | some n0 =>
        match cdc.parse_color (argv.getD 1 "") with
        | none =>
          ⟨some ⟨.CMD_INVALID, some ("Invalid background color " ++ argv.getD 1 "")⟩, none,
            handle_colors_log argv.length cmd_name⟩
        | some n1 =>
        match cdc.parse_color (argv.getD 2 "") with
        | none =>
          ⟨some ⟨.CMD_INVALID, some ("Invalid text color " ++ argv.getD 2 "")⟩, none,
            handle_colors_log argv.length cmd_name⟩
        | some n2 =>
        match cdc.parse_color (argv.getD 3 default_indicator) with
        | none =>
          ⟨some ⟨.CMD_INVALID,
              some ("Invalid indicator color " ++ argv.getD 3 default_indicator)⟩, none,
            handle_colors_log argv.length cmd_name⟩
        | some n3 =>
        match cdc.parse_color (argv.getD 4 (argv.getD 1 "")) with
        | none =>
          ⟨some ⟨.CMD_INVALID,
              some ("Invalid child_border color " ++ argv.getD 4 (argv.getD 1 ""))⟩, none,
            handle_colors_log argv.length cmd_name⟩
        | some n4 =>
          ⟨none, some ⟨cdc.color_to_rgba n0, cdc.color_to_rgba n1, cdc.color_to_rgba n2,
              cdc.color_to_rgba n3, cdc.color_to_rgba n4⟩,
            handle_colors_log argv.length cmd_name⟩ := by
  have hb : ∀ x : String, "Invalid " ++ "border" ++ " color " ++ x
      = "Invalid border color " ++ x := fun x => congrArg (· ++ x) (by decide)
  have hbg : ∀ x : String, "Invalid " ++ "background" ++ " color " ++ x
      = "Invalid background color " ++ x := fun x => congrArg (· ++ x) (by decide)
  have ht : ∀ x : String, "Invalid " ++ "text" ++ " color " ++ x
      = "Invalid text color " ++ x := fun x => congrArg (· ++ x) (by decide)
  have hi : ∀ x : String, "Invalid " ++ "indicator" ++ " color " ++ x
      = "Invalid indicator color " ++ x := fun x => congrArg (· ++ x) (by decide)
  have hc : ∀ x : String, "Invalid " ++ "child_border" ++ " color " ++ x
      = "Invalid child_border color " ++ x := fun x => congrArg (· ++ x) (by decide)
  rw [handle_colors_of_checkarg_none cdc argv cmd_name default_indicator
    (handle_colors_checkarg_none_of_le cmd_name h3 h5)]
  rcases argv with _ | ⟨t0, _ | ⟨t1, _ | ⟨t2, _ | ⟨t3, _ | ⟨t4, _ | ⟨t5, rest⟩⟩⟩⟩⟩⟩
  · simp at h3
  · simp at h3
  · simp at h3
  · cases h0 : cdc.parse_color t0 <;> cases h1 : cdc.parse_color t1 <;>
      cases h2 : cdc.parse_color t2 <;> cases hd : cdc.parse_color default_indicator <;>
      simp [properties, handle_colors_loop, cmd_results_new, h0, h1, h2, hd, hb, hbg, ht, hi,
        hc, colors_field.set, border_colors.zero]
  · cases h0 : cdc.parse_color t0 <;> cases h1 : cdc.parse_color t1 <;>
      cases h2 : cdc.parse_color t2 <;> cases h3' : cdc.parse_color t3 <;>
      simp [properties, handle_colors_loop, cmd_results_new, h0, h1, h2, h3', hb, hbg, ht, hi,
        hc, colors_field.set, border_colors.zero]
  · cases h0 : cdc.parse_color t0 <;> cases h1 : cdc.parse_color t1 <;>
      cases h2 : cdc.parse_color t2 <;> cases h3' : cdc.parse_color t3 <;>
      cases h4 : cdc.parse_color t4 <;>
      simp [properties, handle_colors_loop, cmd_results_new, h0, h1, h2, h3', h4, hb, hbg, ht,
        hi, hc, colors_field.set, border_colors.zero]
  · simp at h5

theorem border_ne_child_border (x y : String) :
    "Invalid border color " ++ x ≠ "Invalid child_border color " ++ y :=
  append_ne_of_take_ne _ _ x y 9 (by decide) (by decide) (by decide)

theorem background_ne_child_border (x y : String) :
    "Invalid background color " ++ x ≠ "Invalid child_border color " ++ y :=
  append_ne_of_take_ne _ _ x y 9 (by decide) (by decide) (by decide)

theorem text_ne_child_border (x y : String) :
    "Invalid text color " ++ x ≠ "Invalid child_border color " ++ y :=
  append_ne_of_take_ne _ _ x y 9 (by decide) (by decide) (by decide)

theorem indicator_ne_child_border (x y : String) :
    "Invalid indicator color " ++ x ≠ "Invalid child_border color " ++ y :=
  append_ne_of_take_ne _ _ x y 9 (by decide) (by decide) (by decide)

theorem border_ne_indicator (x y : String) :
    "Invalid border color " ++ x ≠ "Invalid indicator color " ++ y :=
  append_ne_of_take_ne _ _ x y 9 (by decide) (by decide) (by decide)

theorem background_ne_indicator (x y : String) :
    "Invalid background color " ++ x ≠ "Invalid indicator color " ++ y :=
  append_ne_of_take_ne _ _ x y 9 (by decide) (by decide) (by decide)

theorem text_ne_indicator (x y : String) :
    "Invalid text color " ++ x ≠ "Invalid indicator color " ++ y :=
  append_ne_of_take_ne _ _ x y 9 (by decide) (by decide) (by decide)

theorem decode_failure_ne {a b : String} (h : a ≠ b) :
    some (⟨.CMD_INVALID, some a⟩ : cmd_results) ≠ some ⟨.CMD_INVALID, some b⟩ := by
  intro heq
  apply h
  injection heq with h1
  injection h1 with _ h2
  injection h2

theorem decode_failure_inj {a b : String}
    (h : some (⟨.CMD_INVALID, some a⟩ : cmd_results) = some ⟨.CMD_INVALID, some b⟩) :
    a = b := by
  injection h with h1
  injection h1 with _ h2
  injection h2

/-- When a resolved token is rejected, `handle_colors` fails with an invalid-command result. -/
theorem handle_colors_rows_failure (cdc : Codec) (argv : List String)
    (cmd_name default_indicator : String) (h3 : 3 ≤ argv.length) (h5 : argv.length ≤ 5)
    (hbad : cdc.parse_color (argv.getD 0 "") = none ∨ cdc.parse_color (argv.getD 1 "") = none
      ∨ cdc.parse_color (argv.getD 2 "") = none
      ∨ cdc.parse_color (argv.getD 3 default_indicator) = none
      ∨ cdc.parse_color (argv.getD 4 (argv.getD 1 "")) = none) :
    ∃ e, (handle_colors cdc argv cmd_name default_indicator).error = some e
      ∧ e.status = .CMD_INVALID
      ∧ (handle_colors cdc argv cmd_name default_indicator).committed = none := by
  rw [handle_colors_rows cdc argv cmd_name default_indicator h3 h5]
  cases h0 : cdc.parse_color (argv.getD 0 "") with
  | none => exact ⟨_, rfl, rfl, rfl⟩
  | some n0 =>
  cases h1 : cdc.parse_color (argv.getD 1 "") with
  | none => exact ⟨_, rfl, rfl, rfl⟩
  | some n1 =>
  cases h2 : cdc.parse_color (argv.getD 2 "") with
  | none => exact ⟨_, rfl, rfl, rfl⟩
  | some n2 =>
  cases hi : cdc.parse_color (argv.getD 3 default_indicator) with
  | none => exact ⟨_, rfl, rfl, rfl⟩
  | some n3 =>
  cases hc : cdc.parse_color (argv.getD 4 (argv.getD 1 "")) with
  | none => exact ⟨_, rfl, rfl, rfl⟩
  | some n4 =>
    rw [h0, h1, h2, hi, hc] at hbad
    rcases hbad with h | h | h | h | h <;> cases h

/-- With 3 or 4 tokens no failure of `handle_colors` names child_border. -/
theorem handle_colors_never_child_border (cdc : Codec) (argv : List String)
    (cmd_name default_indicator : String) (h3 : 3 ≤ argv.length) (h4 : argv.length ≤ 4)
    (x : String) :
    (handle_colors cdc argv cmd_name default_indicator).error
      ≠ some ⟨.CMD_INVALID, some ("Invalid child_border color " ++ x)⟩ := by
  have hchild : argv.getD 4 (argv.getD 1 "") = argv.getD 1 "" :=
    List.getD_eq_default _ _ (by omega)
  rw [handle_colors_rows cdc argv cmd_name default_indicator h3 (by omega), hchild]
  cases h0 : cdc.parse_color (argv.getD 0 "") with
  | none => exact decode_failure_ne (border_ne_child_border _ _)
  | some n0 =>
  cases h1 : cdc.parse_color (argv.getD 1 "") with
  | none => exact decode_failure_ne (background_ne_child_border _ _)
  | some n1 =>
  cases h2 : cdc.parse_color (argv.getD 2 "") with
  | none => exact decode_failure_ne (text_ne_child_border _ _)
  | some n2 =>
  cases hi : cdc.parse_color (argv.getD 3 default_indicator) with
  | none => exact decode_failure_ne (indicator_ne_child_border _ _)
  | some n3 => exact fun h => Option.noConfusion h

/-- With 3 tokens a failure of `handle_colors` that names indicator carries the default string,
which `parse_color` rejects. -/
theorem handle_colors_indicator_default (cdc : Codec) (argv : List String)
    (cmd_name default_indicator : String) (hlen : argv.length = 3) (x : String)
    (hx : (handle_colors cdc argv cmd_name default_indicator).error
      = some ⟨.CMD_INVALID, some ("Invalid indicator color " ++ x)⟩) :
    x = default_indicator ∧ cdc.parse_color default_indicator = none := by
  have hind : argv.getD 3 default_indicator = default_indicator :=
    List.getD_eq_default _ _ (by omega)
  have hchild : argv.getD 4 (argv.getD 1 "") = argv.getD 1 "" :=
    List.getD_eq_default _ _ (by omega)
  rw [handle_colors_rows cdc argv cmd_name default_indicator (by omega) (by omega), hind,
    hchild] at hx
  cases h0 : cdc.parse_color (argv.getD 0 "") with
  | none =>
    rw [h0] at hx
    exact absurd hx (decode_failure_ne (border_ne_indicator _ _))
  | some n0 =>
  cases h1 : cdc.parse_color (argv.getD 1 "") with
  | none =>
    rw [h0, h1] at hx
    exact absurd hx (decode_failure_ne (background_ne_indicator _ _))
  | some n1 =>
  cases h2 : cdc.parse_color (argv.getD 2 "") with
  | none =>
    rw [h0, h1, h2] at hx
    exact absurd hx (decode_failure_ne (text_ne_indicator _ _))
  | some n2 =>
  cases hi : cdc.parse_color default_indicator with
  | none =>
    rw [h0, h1, h2, hi] at hx
    exact ⟨(append_left_cancel _ _ _ (decode_failure_inj hx)).symm, rfl⟩
  | some n3 =>
    rw [h0, h1, h2, hi] at hx
    exact Option.noConfusion hx

/-- Claim C13. Let 3 to 5 tokens be given; the resolved tokens are tokens 0, 1 and 2, then
token 3 or else the default string, then token 4 or else token 1. `handle_colors` decodes them
in that order under the names border, background, text, indicator, child_border: at the first
one that `parse_color` rejects it returns the invalid-command result `Invalid <name> color
<token>` with that name and that token, committing nothing, and if none is rejected it commits
the five decodes. So when some resolved token is rejected the result is an invalid-command
failure. With 3 or 4 tokens and a background token that is rejected, the failure names
background and token 1 (border and token 0 when the border token is rejected too), and with 3
or 4 tokens no failure names child_border, whatever the tokens. With 3 tokens a failure naming
indicator carries the default string, and that string is rejected. -/
theorem handle_colors_names_first_failing (cdc : Codec) (argv : List String)
    (cmd_name default_indicator : String) (h3 : 3 ≤ argv.length) (h5 : argv.length ≤ 5) :
    handle_colors cdc argv cmd_name default_indicator
        = (match cdc.parse_color (argv.getD 0 "") with
          | none =>
            ⟨some ⟨.CMD_INVALID, some ("Invalid border color " ++ argv.getD 0 "")⟩, none,
              handle_colors_log argv.length cmd_name⟩
          | some n0 =>
          match cdc.parse_color (argv.getD 1 "") with
          | none =>
            ⟨some ⟨.CMD_INVALID, some ("Invalid background color " ++ argv.getD 1 "")⟩, none,
              handle_colors_log argv.length cmd_name⟩
          | some n1 =>
          match cdc.parse_color (argv.getD 2 "") with
          | none =>
            ⟨some ⟨.CMD_INVALID, some ("Invalid text color " ++ argv.getD 2 "")⟩, none,
              handle_colors_log argv.length cmd_name⟩
          | some n2 =>
          match cdc.parse_color (argv.getD 3 default_indicator) with
          | none =>
            ⟨some ⟨.CMD_INVALID,
                some ("Invalid indicator color " ++ argv.getD 3 default_indicator)⟩, none,
              handle_colors_log argv.length cmd_name⟩
          | some n3 =>
          match cdc.parse_color (argv.getD 4 (argv.getD 1 "")) with
          | none =>
            ⟨some ⟨.CMD_INVALID,
                some ("Invalid child_border color " ++ argv.getD 4 (argv.getD 1 ""))⟩, none,
              handle_colors_log argv.length cmd_name⟩
          | some n4 =>
            ⟨none, some ⟨cdc.color_to_rgba n0, cdc.color_to_rgba n1, cdc.color_to_rgba n2,
                cdc.color_to_rgba n3, cdc.color_to_rgba n4⟩,
              handle_colors_log argv.length cmd_name⟩)
      ∧ ((cdc.parse_color (argv.getD 0 "") = none ∨ cdc.parse_color (argv.getD 1 "") = none
            ∨ cdc.parse_color (argv.getD 2 "") = none
            ∨ cdc.parse_color (argv.getD 3 default_indicator) = none
            ∨ cdc.parse_color (argv.getD 4 (argv.getD 1 "")) = none) →
          ∃ e, (handle_colors cdc argv cmd_name default_indicator).error = some e
            ∧ e.status = .CMD_INVALID
            ∧ (handle_colors cdc argv cmd_name default_indicator).committed = none)
      ∧ (argv.length ≤ 4 → cdc.parse_color (argv.getD 1 "") = none →
          (handle_colors cdc argv cmd_name default_indicator).error
            = some (if (cdc.parse_color (argv.getD 0 "")).isSome = true
                then ⟨.CMD_INVALID, some ("Invalid background color " ++ argv.getD 1 "")⟩
                else ⟨.CMD_INVALID, some ("Invalid border color " ++ argv.getD 0 "")⟩))
      ∧ (argv.length ≤ 4 → ∀ x : String,
          (handle_colors cdc argv cmd_name default_indicator).error
            ≠ some ⟨.CMD_INVALID, some ("Invalid child_border color " ++ x)⟩)
      ∧ (argv.length = 3 → ∀ x : String,
          (handle_colors cdc argv cmd_name default_indicator).error
              = some ⟨.CMD_INVALID, some ("Invalid indicator color " ++ x)⟩ →
            x = default_indicator ∧ cdc.parse_color default_indicator = none) := by
  have hrows := handle_colors_rows cdc argv cmd_name default_indicator h3 h5
  refine ⟨hrows, handle_colors_rows_failure cdc argv cmd_name default_indicator h3 h5, ?_,
    fun h4 x => handle_colors_never_child_border cdc argv cmd_name default_indicator h3 h4 x,
    fun hlen x hx =>
      handle_colors_indicator_default cdc argv cmd_name default_indicator hlen x hx⟩
  intro _ hbg
  rw [hrows, hbg]
  cases h0 : cdc.parse_color (argv.getD 0 "") <;> rfl

/-- Claim C13 at `client.urgent #ff0000ff bad-token #0000ffff` with the codec of the spec: the
failure names `background` and the token `bad-token`. -/
theorem handle_colors_names_first_failing_witness :
    (handle_colors hex_codec ["#ff0000ff", "bad-token", "#0000ffff"] "client.urgent"
        "#900000ff").error
      = some (if (hex_codec.parse_color
            (["#ff0000ff", "bad-token", "#0000ffff"].getD 0 "")).isSome = true
          then ⟨.CMD_INVALID, some ("Invalid background color "
            ++ ["#ff0000ff", "bad-token", "#0000ffff"].getD 1 "")⟩
          else ⟨.CMD_INVALID, some ("Invalid border color "
            ++ ["#ff0000ff", "bad-token", "#0000ffff"].getD 0 "")⟩) :=
  (handle_colors_names_first_failing hex_codec ["#ff0000ff", "bad-token", "#0000ffff"]
    "client.urgent" "#900000ff" (by decide) (by decide)).2.2.1 (by decide) (by decide)

/-! ## The warning of `client.focused_tab_title` -/

theorem handle_colors_log_eq (cdc : Codec) (argv : List String)
    (cmd_name default_indicator : String) :
    (handle_colors cdc argv cmd_name default_indicator).log
      = if 3 ≤ argv.length ∧ argv.length ≤ 5 then handle_colors_log argv.length cmd_name
        else [] := by
  cases hchk : (checkarg argv.length cmd_name .EXPECTED_AT_LEAST 3).orElse
      (fun _ => checkarg argv.length cmd_name .EXPECTED_AT_MOST 5) with
  | some e =>
    have hnot : ¬ (3 ≤ argv.length ∧ argv.length ≤ 5) := by
      intro h
      rw [handle_colors_checkarg_none_of_le cmd_name h.1 h.2] at hchk
      cases hchk
    rw [handle_colors_of_checkarg_some cdc argv cmd_name default_indicator e hchk, if_neg hnot]
  | none =>
    rw [handle_colors_of_checkarg_none cdc argv cmd_name default_indicator hchk,
      if_pos (handle_colors_checkarg_le_of_none hchk)]
    cases handle_colors_loop cdc (properties argv default_indicator) border_colors.zero <;> rfl

theorem handle_colors_quiet_eq (cdc : Codec) (argv : List String)
    (cmd_name default_indicator : String) :
    handle_colors_quiet cdc argv cmd_name default_indicator
      = ((handle_colors cdc argv cmd_name default_indicator).error,
          (handle_colors cdc argv cmd_name default_indicator).committed) := by
  cases hchk : (checkarg argv.length cmd_name .EXPECTED_AT_LEAST 3).orElse
      (fun _ => checkarg argv.length cmd_name .EXPECTED_AT_MOST 5) with
  | some e =>
    rw [handle_colors_of_checkarg_some cdc argv cmd_name default_indicator e hchk]
    simp only [handle_colors_quiet, hchk]
  | none =>
    rw [handle_colors_of_checkarg_none cdc argv cmd_name default_indicator hchk]
    simp only [handle_colors_quiet, hchk]
    cases handle_colors_loop cdc (properties argv default_indicator) border_colors.zero <;> rfl

/-- Claim C14. The lines logged by `handle_colors` are the single no-effect warning when the
command name is `client.focused_tab_title` and 4 or 5 tokens were given, and nothing in every
other case: in particular nothing for the command names of the other four classes and nothing
with exactly 3 tokens. The returned pointer and the committed record are those of the function
with the `sway_log` block taken out. -/
theorem handle_colors_warning (cdc : Codec) (argv : List String)
    (cmd_name default_indicator : String) :
    (handle_colors cdc argv cmd_name default_indicator).log
        = (if cmd_name = "client.focused_tab_title" ∧ (argv.length = 4 ∨ argv.length = 5) then
            ["Warning: indicator and child_border colors have no effect for " ++ cmd_name]
          else [])
      ∧ ((handle_colors cdc argv cmd_name default_indicator).error,
          (handle_colors cdc argv cmd_name default_indicator).committed)
          = handle_colors_quiet cdc argv cmd_name default_indicator
      ∧ (∀ cls, cls ≠ .focused_tab_title →
          (handle_colors cdc argv (class_cmd_name cls) default_indicator).log = [])
      ∧ (argv.length = 3 → (handle_colors cdc argv cmd_name default_indicator).log = []) := by
  have hlog : ∀ name : String, (handle_colors cdc argv name default_indicator).log
      = (if name = "client.focused_tab_title" ∧ (argv.length = 4 ∨ argv.length = 5) then
          ["Warning: indicator and child_border colors have no effect for " ++ name]
        else []) := by
    intro name
    rw [handle_colors_log_eq]
    by_cases hname : name = "client.focused_tab_title"
    · by_cases h4 : argv.length = 4
      · simp [handle_colors_log, hname, h4]
      · by_cases h5 : argv.length = 5
        · simp [handle_colors_log, hname, h5]
        · have hnot : ¬ (argv.length = 4 ∨ argv.length = 5) := by omega
          by_cases hin : 3 ≤ argv.length ∧ argv.length ≤ 5
          · have h3 : argv.length = 3 := by omega
            simp [handle_colors_log, h3]
          · simp [hin, hnot]
    · simp [handle_colors_log, hname]
  refine ⟨hlog cmd_name, (handle_colors_quiet_eq cdc argv cmd_name default_indicator).symm,
    ?_, ?_⟩
  · intro cls hcls
    rw [hlog]
    have hname : class_cmd_name cls ≠ "client.focused_tab_title" := by
      cases cls <;> first | exact absurd rfl hcls | decide
    simp [hname]
  · intro h3
    rw [hlog]
    have hnot : ¬ (argv.length = 4 ∨ argv.length = 5) := by omega
    simp [hnot]

/-- Claim C14 at `client.focused_tab_title #ff0000ff #00ff00ff #0000ffff #ffffffff` (warning),
at the same tokens for `client.urgent` and at three tokens (no warning). -/
theorem handle_colors_warning_witness :
    (handle_colors hex_codec ["#ff0000ff", "#00ff00ff", "#0000ffff", "#ffffffff"]
        "client.focused_tab_title" "#2e9ef4ff").log
        = (if "client.focused_tab_title" = "client.focused_tab_title"
              ∧ (["#ff0000ff", "#00ff00ff", "#0000ffff", "#ffffffff"].length = 4
                ∨ ["#ff0000ff", "#00ff00ff", "#0000ffff", "#ffffffff"].length = 5) then
            ["Warning: indicator and child_border colors have no effect for "
              ++ "client.focused_tab_title"]
          else [])
      ∧ (handle_colors hex_codec ["#ff0000ff", "#00ff00ff", "#0000ffff", "#ffffffff"]
          (class_cmd_name .urgent) "#900000ff").log = []
      ∧ (handle_colors hex_codec ["#ff0000ff", "#00ff00ff", "#0000ffff"]
          "client.focused_tab_title" "#2e9ef4ff").log = [] :=
  ⟨(handle_colors_warning hex_codec ["#ff0000ff", "#00ff00ff", "#0000ffff", "#ffffffff"]
      "client.focused_tab_title" "#2e9ef4ff").1,
    (handle_colors_warning hex_codec ["#ff0000ff", "#00ff00ff", "#0000ffff", "#ffffffff"]
      "client.urgent" "#900000ff").2.2.1 .urgent (by decide),
    (handle_colors_warning hex_codec ["#ff0000ff", "#00ff00ff", "#0000ffff"]
      "client.focused_tab_title" "#2e9ef4ff").2.2.2 (by decide)⟩

/-! ## `default` with further arguments -/

/-- Claim C15. When the first argument is `default` and there are 2 or more arguments,
`handle_container_command` returns the failure of the at-most-1 count check and the state is
what it was: the slot of the class, the heap of records (nothing freed or written) and the
refresh count are unchanged. -/
theorem handle_container_command_default_extra (cdc : Codec) (argv : List String)
    (cmd_name : String) (con : Nat) (cls : border_color_class) (default_indicator : String)
    (s : State) (hfirst : argv.getD 0 "" = "default") (hlen : 2 ≤ argv.length) :
    (checkarg argv.length cmd_name .EXPECTED_AT_MOST 1).isSome = true
      ∧ (handle_container_command cdc argv cmd_name con cls default_indicator s).1
          = checkarg argv.length cmd_name .EXPECTED_AT_MOST 1
      ∧ (handle_container_command cdc argv cmd_name con cls default_indicator s).2 = s
      ∧ ((handle_container_command cdc argv cmd_name con cls default_indicator s).2.containers
          con).border_colors cls = (s.containers con).border_colors cls
      ∧ (handle_container_command cdc argv cmd_name con cls default_indicator s).2.heap.frees
          = s.heap.frees
      ∧ (handle_container_command cdc argv cmd_name con cls default_indicator s).2.heap.cells
          = s.heap.cells
      ∧ (handle_container_command cdc argv cmd_name con cls default_indicator s).2.refreshes
          = s.refreshes := by
  have h1 : checkarg argv.length cmd_name .EXPECTED_AT_LEAST 1 = none :=
    checkarg_at_least_eq_none cmd_name (by omega)
  have hsome := checkarg_at_most_isSome cmd_name (show 1 < argv.length by omega)
  obtain ⟨e, he⟩ := Option.isSome_iff_exists.mp hsome
  have hrun : handle_container_command cdc argv cmd_name con cls default_indicator s
      = (some e, s) := by
    simp only [handle_container_command, h1, hfirst, if_true, he]
  rw [hrun, he]
  exact ⟨rfl, rfl, rfl, rfl, rfl, rfl, rfl⟩

/-- Claim C15 at the entity-scoped `client.urgent default #ff0000ff` on container `0`, which
holds an override. -/
theorem handle_container_command_default_extra_witness :
    (handle_container_command hex_codec ["default", "#ff0000ff"] "client.urgent" 0 .urgent
        "#900000ff" State.with_urgent_override).1
        = checkarg 2 "client.urgent" .EXPECTED_AT_MOST 1
      ∧ (handle_container_command hex_codec ["default", "#ff0000ff"] "client.urgent" 0 .urgent
          "#900000ff" State.with_urgent_override).2 = State.with_urgent_override :=
  have h := handle_container_command_default_extra hex_codec ["default", "#ff0000ff"]
    "client.urgent" 0 .urgent "#900000ff" State.with_urgent_override (by decide) (by decide)
  ⟨h.2.1, h.2.2.1⟩

/-! ## `client.focused_tab_title` is global only -/

/-- The state that `handle_command` leaves: the log extended, the committed record (if any)
stored in the global table, and the refresh on success. -/
theorem handle_command_of_error (cdc : Codec) (argv : List String) (cmd_name : String)
    (cls : border_color_class) (default_indicator : String) (s : State) (e : cmd_results)
    (he : (handle_colors cdc argv cmd_name default_indicator).error = some e) :
    handle_command cdc argv cmd_name cls default_indicator s
      = (some e, { s with
          log := s.log ++ (handle_colors cdc argv cmd_name default_indicator).log }) := by
  have hc := handle_colors_committed_eq_none cdc argv cmd_name default_indicator e he
  simp only [handle_command, he, hc]

theorem handle_command_of_success (cdc : Codec) (argv : List String) (cmd_name : String)
    (cls : border_color_class) (default_indicator : String) (s : State)
    (colors : border_colors)
    (herr : (handle_colors cdc argv cmd_name default_indicator).error = none)
    (hc : (handle_colors cdc argv cmd_name default_indicator).committed = some colors) :
    handle_command cdc argv cmd_name cls default_indicator s
      = (none, (({ s with
          log := s.log ++ (handle_colors cdc argv cmd_name default_indicator).log } :
            State).set_global cls colors).refresh) := by
  simp only [handle_command, herr, hc]

/-- Frame of `handle_command`: containers and heap are untouched, the global records of the
other classes are untouched, and the record of the class is the committed one, if any. -/
theorem handle_command_frame (cdc : Codec) (argv : List String) (cmd_name : String)
    (cls : border_color_class) (default_indicator : String) (s : State) :
    (handle_command cdc argv cmd_name cls default_indicator s).2.containers = s.containers
      ∧ (handle_command cdc argv cmd_name cls default_indicator s).2.heap = s.heap
      ∧ (handle_command cdc argv cmd_name cls default_indicator s).2.config.border_colors cls
          = ((handle_colors cdc argv cmd_name default_indicator).committed).getD
              (s.config.border_colors cls)
      ∧ (∀ cls', cls' ≠ cls →
          (handle_command cdc argv cmd_name cls default_indicator s).2.config.border_colors cls'
            = s.config.border_colors cls')
      ∧ (handle_command cdc argv cmd_name cls default_indicator s).2.config.active
          = s.config.active
      ∧ (handle_command cdc argv cmd_name cls default_indicator
          s).2.config.handler_context_container = s.config.handler_context_container := by
  rcases handle_colors_cases cdc argv cmd_name default_indicator with
    ⟨e, he, hc⟩ | ⟨colors, herr, hc⟩
  · rw [handle_command_of_error cdc argv cmd_name cls default_indicator s e he, hc]
    simp
  · rw [handle_command_of_success cdc argv cmd_name cls default_indicator s colors herr hc, hc]
    refine ⟨?_, ?_, ?_, ?_, ?_, ?_⟩ <;>
      simp only [State.refresh_containers, State.refresh_heap, State.refresh_config,
        State.set_global, Function.update_same, Option.getD_some]
    intro cls' hne
    exact Function.update_noteq hne _ _

/-- Claim C16. Whatever the arguments and whatever container is in the handler context,
`cmd_client_focused_tab_title` returns what `handle_colors` returns on the whole argument list
(no leading token is consumed), leaves every container and the heap of override records as they
were, leaves the global records of the other four classes as they were, and behaves the same
when the container in context is replaced by any other. With 3 to 5 arguments of which the
first does not decode (as `global` and `default` do not, for the codec of the spec), the call
fails with `Invalid border color <first argument>` and the global table is unchanged. -/
theorem cmd_client_focused_tab_title_global_only (cdc : Codec) (argv : List String)
    (s : State) :
    (cmd_client_focused_tab_title cdc argv s).1
        = (handle_colors cdc argv "client.focused_tab_title" "#2e9ef4ff").error
      ∧ (cmd_client_focused_tab_title cdc argv s).2.containers = s.containers
      ∧ (cmd_client_focused_tab_title cdc argv s).2.heap = s.heap
      ∧ (cmd_client_focused_tab_title cdc argv s).2.config.border_colors .focused_tab_title
          = ((handle_colors cdc argv "client.focused_tab_title" "#2e9ef4ff").committed).getD
              (s.config.border_colors .focused_tab_title)
      ∧ (∀ cls, cls ≠ .focused_tab_title →
          (cmd_client_focused_tab_title cdc argv s).2.config.border_colors cls
            = s.config.border_colors cls)
      ∧ (∀ c : Option Nat,
          (cmd_client_focused_tab_title cdc argv
              { s with config := { s.config with handler_context_container := c } }).1
            = (cmd_client_focused_tab_title cdc argv s).1
          ∧ (cmd_client_focused_tab_title cdc argv
              { s with config := { s.config with handler_context_container := c } }).2
            = { (cmd_client_focused_tab_title cdc argv s).2 with
                config := { (cmd_client_focused_tab_title cdc argv s).2.config with
                  handler_context_container := c } })
      ∧ (3 ≤ argv.length → argv.length ≤ 5 → cdc.parse_color (argv.getD 0 "") = none →
          (cmd_client_focused_tab_title cdc argv s).1
              = some (cmd_results_new .CMD_INVALID
                  (some ("Invalid " ++ "border" ++ " color " ++ argv.getD 0 "")))
            ∧ (cmd_client_focused_tab_title cdc argv s).2.config.border_colors
              = s.config.border_colors)
      ∧ parse_color "global" = none ∧ parse_color "default" = none := by
  have hrun : ∀ s : State, cmd_client_focused_tab_title cdc argv s
      = handle_command cdc argv "client.focused_tab_title" .focused_tab_title "#2e9ef4ff"
          s := by
    intro s
    unfold cmd_client_focused_tab_title
    cases hr : (handle_command cdc argv "client.focused_tab_title" .focused_tab_title
        "#2e9ef4ff" s).1 with
    | none => simp [hr]
    | some r =>
      have hst : r.status = .CMD_INVALID := by
        rw [handle_command_fst] at hr
        exact handle_colors_error_status cdc argv _ _ r hr
      simp [hr, hst]
  obtain ⟨hcon, hheap, hrec, hothers, -, -⟩ := handle_command_frame cdc argv
    "client.focused_tab_title" .focused_tab_title "#2e9ef4ff" s
  refine ⟨?_, ?_, ?_, ?_, ?_, ?_, ?_, by decide, by decide⟩
  · rw [hrun, handle_command_fst]
  · rw [hrun]; exact hcon
  · rw [hrun]; exact hheap
  · rw [hrun]; exact hrec
  · rw [hrun]; exact hothers
  · intro c
    rw [hrun, hrun]
    rcases handle_colors_cases cdc argv "client.focused_tab_title" "#2e9ef4ff" with
      ⟨e, he, hc⟩ | ⟨colors, herr, hc⟩
    · rw [handle_command_of_error cdc argv _ _ _ _ e he,
        handle_command_of_error cdc argv _ _ _ _ e he]
      exact ⟨rfl, rfl⟩
    · rw [handle_command_of_success cdc argv _ _ _ _ colors herr hc,
        handle_command_of_success cdc argv _ _ _ _ colors herr hc]
      refine ⟨rfl, ?_⟩
      simp only [State.refresh, State.set_global]
      split <;> rfl
  · intro h3 h5 hbad
    have hfind : first_failing cdc argv "#2e9ef4ff"
        = some ⟨"border", argv.getD 0 "", .border⟩ := by
      simp only [first_failing, properties, List.find?, hbad, Option.isNone_none]
    have hcolors := handle_colors_of_checkarg_none cdc argv "client.focused_tab_title"
      "#2e9ef4ff" (handle_colors_checkarg_none_of_le _ h3 h5)
    rw [handle_colors_loop_of_find cdc _ _ _ hfind] at hcolors
    have he : (handle_colors cdc argv "client.focused_tab_title" "#2e9ef4ff").error
        = some (cmd_results_new .CMD_INVALID
            (some ("Invalid " ++ "border" ++ " color " ++ argv.getD 0 ""))) := by
      rw [hcolors]
    rw [hrun, handle_command_of_error cdc argv _ _ _ _ _ he]
    exact ⟨rfl, rfl⟩

/-- Claim C16 at `client.focused_tab_title global #ff0000ff #00ff00ff #0000ffff` with the codec
of the spec: `global` is decoded as the border token and rejected. -/
theorem cmd_client_focused_tab_title_global_only_witness :
    (cmd_client_focused_tab_title hex_codec ["global", "#ff0000ff", "#00ff00ff", "#0000ffff"]
        State.with_urgent_override).1
        = some (cmd_results_new .CMD_INVALID
            (some ("Invalid " ++ "border" ++ " color "
              ++ ["global", "#ff0000ff", "#00ff00ff", "#0000ffff"].getD 0 "")))
      ∧ (cmd_client_focused_tab_title hex_codec
          ["global", "#ff0000ff", "#00ff00ff", "#0000ffff"]
          State.with_urgent_override).2.config.border_colors
          = State.with_urgent_override.config.border_colors :=
  (cmd_client_focused_tab_title_global_only hex_codec
    ["global", "#ff0000ff", "#00ff00ff", "#0000ffff"]
    State.with_urgent_override).2.2.2.2.2.2.1 (by decide) (by decide) (by decide)

/-! ## Defaulting against spelled-out tokens -/

/-- Claim C17. For every command name, `handle_colors` on the 3 tokens `a b c` with the default
indicator `d` returns the same pointer and commits the same record as on the 5 tokens
`a b c d b` (whatever default is passed there), and the whole outcome, log included, is the same
unless the command name is `client.focused_tab_title`, for which the 5-token call also logs the
warning. On the 4 tokens `a b c i` the whole outcome is that on the 5 tokens `a b c i b`, for
every command name. -/
theorem handle_colors_defaulting (cdc : Codec) (cmd_name d d' a b c i : String) :
    (handle_colors cdc [a, b, c] cmd_name d).error
        = (handle_colors cdc [a, b, c, d, b] cmd_name d').error
      ∧ (handle_colors cdc [a, b, c] cmd_name d).committed
        = (handle_colors cdc [a, b, c, d, b] cmd_name d').committed
      ∧ (cmd_name ≠ "client.focused_tab_title" →
        handle_colors cdc [a, b, c] cmd_name d = handle_colors cdc [a, b, c, d, b] cmd_name d')
      ∧ ((handle_colors cdc [a, b, c] "client.focused_tab_title" d).log = []
        ∧ (handle_colors cdc [a, b, c, d, b] "client.focused_tab_title" d').log
          = ["Warning: indicator and child_border colors have no effect for "
              ++ "client.focused_tab_title"])
      ∧ handle_colors cdc [a, b, c, i] cmd_name d
        = handle_colors cdc [a, b, c, i, b] cmd_name d' := by
  have h3 := handle_colors_of_checkarg_none cdc [a, b, c] cmd_name d
    (handle_colors_checkarg_none_of_le cmd_name (by simp) (by simp))
  have h4 := handle_colors_of_checkarg_none cdc [a, b, c, i] cmd_name d
    (handle_colors_checkarg_none_of_le cmd_name (by simp) (by simp))
  have h5 := handle_colors_of_checkarg_none cdc [a, b, c, d, b] cmd_name d'
    (handle_colors_checkarg_none_of_le cmd_name (by simp) (by simp))
  have h5i := handle_colors_of_checkarg_none cdc [a, b, c, i, b] cmd_name d'
    (handle_colors_checkarg_none_of_le cmd_name (by simp) (by simp))
  have hp3 : properties [a, b, c] d = properties [a, b, c, d, b] d' := by
    simp [properties]
  have hp4 : properties [a, b, c, i] d = properties [a, b, c, i, b] d' := by
    simp [properties]
  rw [h3, h4, h5, h5i, hp3, hp4]
  refine ⟨?_, ?_, ?_, ?_, ?_⟩
  · cases handle_colors_loop cdc (properties [a, b, c, d, b] d') border_colors.zero <;> rfl
  · cases handle_colors_loop cdc (properties [a, b, c, d, b] d') border_colors.zero <;> rfl
  · intro hname
    have hl3 : handle_colors_log [a, b, c].length cmd_name = [] := by
      simp [handle_colors_log]
    have hl5 : handle_colors_log [a, b, c, d, b].length cmd_name = [] := by
      simp [handle_colors_log, hname]
    rw [hl3, hl5]
  · constructor
    · rw [handle_colors_log_eq]; simp [handle_colors_log]
    · rw [handle_colors_log_eq]; simp [handle_colors_log]
  · have hl : handle_colors_log [a, b, c, i].length cmd_name
        = handle_colors_log [a, b, c, i, b].length cmd_name := by
      simp [handle_colors_log]
    rw [hl]

/-- Claim C17 at `client.urgent bad-token #00ff00ff #0000ffff` with the default `#900000ff`,
against the same tokens followed by `#900000ff #00ff00ff`. -/
theorem handle_colors_defaulting_witness :
    handle_colors hex_codec ["bad-token", "#00ff00ff", "#0000ffff"] "client.urgent" "#900000ff"
      = handle_colors hex_codec ["bad-token", "#00ff00ff", "#0000ffff", "#900000ff", "#00ff00ff"]
          "client.urgent" "unused" :=
  (handle_colors_defaulting hex_codec "client.urgent" "#900000ff" "unused" "bad-token"
    "#00ff00ff" "#0000ffff" "#ffffffff").2.2.1 (by decide)

/-! ## Frame of the mutations -/

theorem State.set_override_slot_of_ne (s : State) (con : Nat) (cls : border_color_class)
    (p : Option Nat) (con' : Nat) (cls' : border_color_class)
    (h : con' ≠ con ∨ cls' ≠ cls) :
    ((s.set_override con cls p).containers con').border_colors cls'
      = (s.containers con').border_colors cls' := by
  by_cases hc : con' = con
  · subst hc
    rcases h with h | h
    · exact absurd rfl h
    · simp [State.set_override, Function.update_noteq h]
  · simp [State.set_override, Function.update_noteq hc]

theorem Heap.free_cells_of_ne (h : Heap) (p q : Nat) (hq : q ≠ p) :
    (h.free p).cells q = h.cells q := by
  simp [Heap.free, Function.update_noteq hq]

theorem Heap.memcpy_cells_of_ne (h : Heap) (p q : Nat) (colors : border_colors) (hq : q ≠ p) :
    (h.memcpy p colors).cells q = h.cells q := by
  unfold Heap.memcpy
  cases h.cells p with
  | none => rfl
  | some old => simp [Function.update_noteq hq]

theorem Heap.calloc_cells_of_ne (h : Heap) (q : Nat) (hq : q ≠ h.next) :
    h.calloc.2.cells q = h.cells q := by
  unfold Heap.calloc
  split
  · rfl
  · simp [Function.update_noteq hq]

/-- The reset path of `handle_container_command`: exactly the argument `default`. -/
theorem handle_container_command_of_default (cdc : Codec) (argv : List String)
    (cmd_name : String) (con : Nat) (cls : border_color_class) (default_indicator : String)
    (s : State) (hfirst : argv.getD 0 "" = "default") (hlen : argv.length = 1) :
    handle_container_command cdc argv cmd_name con cls default_indicator s
      = (none, (match (s.containers con).border_colors cls with
          | some p => ({ s with heap := s.heap.free p } : State).set_override con cls none
          | none => s).refresh) := by
  have h1 : checkarg argv.length cmd_name .EXPECTED_AT_LEAST 1 = none :=
    checkarg_at_least_eq_none cmd_name (by omega)
  have h2 : checkarg argv.length cmd_name .EXPECTED_AT_MOST 1 = none :=
    checkarg_at_most_eq_none cmd_name (by omega)
  simp only [handle_container_command, h1, h2, hfirst, if_true]

/-- The path of `handle_container_command` on which `default` is followed by more arguments. -/
theorem handle_container_command_of_default_extra (cdc : Codec) (argv : List String)
    (cmd_name : String) (con : Nat) (cls : border_color_class) (default_indicator : String)
    (s : State) (hfirst : argv.getD 0 "" = "default") (hlen : 2 ≤ argv.length) :
    ∃ e, handle_container_command cdc argv cmd_name con cls default_indicator s = (some e, s) := by
  have h1 : checkarg argv.length cmd_name .EXPECTED_AT_LEAST 1 = none :=
    checkarg_at_least_eq_none cmd_name (by omega)
  obtain ⟨e, he⟩ := Option.isSome_iff_exists.mp
    (checkarg_at_most_isSome cmd_name (show 1 < argv.length by omega))
  exact ⟨e, by simp only [handle_container_command, h1, hfirst, if_true, he]⟩

/-- Frame of `handle_container_command`: the configuration is untouched, every slot other than
that of the container and class is untouched, and so is every heap cell other than the one the
slot pointed to and the one a `calloc` would hand out. -/
theorem handle_container_command_frame (cdc : Codec) (argv : List String)
    (cmd_name : String) (con : Nat) (cls : border_color_class) (default_indicator : String)
    (s : State) :
    (handle_container_command cdc argv cmd_name con cls default_indicator s).2.config = s.config
      ∧ (∀ con' cls', con' ≠ con ∨ cls' ≠ cls →
          ((handle_container_command cdc argv cmd_name con cls default_indicator
              s).2.containers con').border_colors cls'
            = (s.containers con').border_colors cls')
      ∧ (∀ q, (s.containers con).border_colors cls ≠ some q → q ≠ s.heap.next →
          (handle_container_command cdc argv cmd_name con cls default_indicator
              s).2.heap.cells q = s.heap.cells q) := by
  by_cases hne : argv = []
  · subst hne
    obtain ⟨e, he⟩ := handle_container_command_nil cdc cmd_name con cls default_indicator s
    rw [he]
    exact ⟨rfl, fun _ _ _ => rfl, fun _ _ _ => rfl⟩
  have hpos := length_pos_of_ne_nil hne
  by_cases hfirst : argv.getD 0 "" = "default"
  · by_cases hlen : argv.length = 1
    · rw [handle_container_command_of_default cdc argv cmd_name con cls default_indicator s
        hfirst hlen]
      cases hslot : (s.containers con).border_colors cls with
      | none =>
        simp only [State.refresh_config, State.refresh_containers, State.refresh_heap]
        exact ⟨trivial, fun _ _ _ => trivial, fun _ _ _ => trivial⟩
      | some p =>
        simp only [State.refresh_config, State.refresh_containers, State.refresh_heap]
        refine ⟨rfl, fun con' cls' h => ?_, fun q hq _ => ?_⟩
        · exact State.set_override_slot_of_ne _ con cls none con' cls' h
        · have hqp : q ≠ p := fun h => hq (by rw [h])
          simpa [State.set_override] using Heap.free_cells_of_ne s.heap p q hqp
    · obtain ⟨e, he⟩ := handle_container_command_of_default_extra cdc argv cmd_name con cls
        default_indicator s hfirst (by omega)
      rw [he]
      exact ⟨rfl, fun _ _ _ => rfl, fun _ _ _ => rfl⟩
  · cases hslot : (s.containers con).border_colors cls with
    | some p =>
      rcases handle_colors_cases cdc argv cmd_name default_indicator with
        ⟨e, he, -⟩ | ⟨colors, herr, hc⟩
      · rw [handle_container_command_failure_of_override cdc argv cmd_name con cls
          default_indicator s p e hslot hne hfirst he]
        refine ⟨rfl, fun _ _ _ => rfl, fun q hq _ => ?_⟩
        have hqp : q ≠ p := fun h => hq (by rw [h])
        exact Heap.free_cells_of_ne s.heap p q hqp
      · rw [handle_container_command_success_of_override cdc argv cmd_name con cls
          default_indicator s p colors hslot hne hfirst herr hc]
        simp only [State.refresh_config, State.refresh_containers, State.refresh_heap]
        refine ⟨trivial, fun _ _ _ => trivial, fun q hq _ => ?_⟩
        have hqp : q ≠ p := fun h => hq (by rw [h])
        exact Heap.memcpy_cells_of_ne s.heap p q colors hqp
    | none =>
      by_cases hoom : s.heap.calloc_fails.head? = some true
      · rw [handle_container_command_of_calloc_null cdc argv cmd_name con cls
          default_indicator s hslot hne hfirst hoom]
        refine ⟨rfl, fun _ _ _ => rfl, fun q _ hq => ?_⟩
        exact Heap.calloc_cells_of_ne s.heap q hq
      · rcases handle_colors_cases cdc argv cmd_name default_indicator with
          ⟨e, he, -⟩ | ⟨colors, herr, hc⟩
        · rw [handle_container_command_failure_of_absent cdc argv cmd_name con cls
            default_indicator s e hslot hne hfirst hoom he]
          refine ⟨rfl, fun _ _ _ => rfl, fun q _ hq => ?_⟩
          show (s.heap.calloc.2.free s.heap.next).cells q = s.heap.cells q
          rw [Heap.free_cells_of_ne _ _ _ hq, Heap.calloc_cells_of_ne _ _ hq]
        · rw [handle_container_command_success_of_absent cdc argv cmd_name con cls
            default_indicator s colors hslot hne hfirst hoom herr hc]
          simp only [State.refresh_config, State.refresh_containers, State.refresh_heap]
          refine ⟨rfl, fun con' cls' h => ?_, fun q _ hq => ?_⟩
          · exact State.set_override_slot_of_ne _ con cls _ con' cls' h
          · show (s.heap.calloc.2.memcpy s.heap.next colors).cells q = s.heap.cells q
            rw [Heap.memcpy_cells_of_ne _ _ _ _ hq, Heap.calloc_cells_of_ne _ _ hq]

/-- The state that `handle_command_context` leaves is the one it was given, or the one left by
the mutation it selected. -/
theorem handle_command_context_snd (cdc : Codec) (argv : List String) (cmd_name : String)
    (cls : border_color_class) (con : Option Nat) (default_indicator : String) (s : State) :
    (handle_command_context cdc argv cmd_name cls con default_indicator s).2 = s
      ∨ (handle_command_context cdc argv cmd_name cls con default_indicator s).2
          = (handle_command cdc argv.tail cmd_name cls default_indicator s).2
      ∨ (handle_command_context cdc argv cmd_name cls con default_indicator s).2
          = (handle_command cdc argv cmd_name cls default_indicator s).2
      ∨ ∃ c, con = some c
          ∧ (handle_command_context cdc argv cmd_name cls con default_indicator s).2
            = (handle_container_command cdc argv cmd_name c cls default_indicator s).2 := by
  unfold handle_command_context
  cases checkarg argv.length cmd_name .EXPECTED_AT_LEAST 1 with
  | some e => exact Or.inl rfl
  | none =>
    by_cases hg : argv.getD 0 "" = "global"
    · refine Or.inr (Or.inl ?_)
      simp only [hg, if_true]
      cases (handle_command cdc argv.tail cmd_name cls default_indicator s).1 <;> rfl
    · cases con with
      | none =>
        refine Or.inr (Or.inr (Or.inl ?_))
        simp only [hg, if_false]
        cases (handle_command cdc argv cmd_name cls default_indicator s).1 <;> rfl
      | some c =>
        refine Or.inr (Or.inr (Or.inr ⟨c, rfl, ?_⟩))
        simp only [hg, if_false]
        cases (handle_container_command cdc argv cmd_name c cls default_indicator s).1 <;> rfl

/-- Claim C18. A global mutation for a class (`handle_command`) leaves every container, the
heap of override records and the global records of all other classes as they were. An
entity-scoped mutation or reset (`handle_container_command`) leaves the configuration, with the
whole global table, as it was, as well as every slot other than that of the container and
class, and every heap cell other than the one that slot pointed to and the one a `calloc` hands
out. Whatever `handle_command_context` selects, the global records and the slots of all other
classes, and all slots of containers not in context, are as they were. All of this holds
whether the call succeeds or fails. -/
theorem mutation_frame (cdc : Codec) (argv : List String) (cmd_name : String) (con : Nat)
    (cls : border_color_class) (default_indicator : String) (s : State) (ctx : Option Nat) :
    ((handle_command cdc argv cmd_name cls default_indicator s).2.containers = s.containers
        ∧ (handle_command cdc argv cmd_name cls default_indicator s).2.heap = s.heap
        ∧ ∀ cls', cls' ≠ cls →
          (handle_command cdc argv cmd_name cls default_indicator s).2.config.border_colors cls'
            = s.config.border_colors cls')
      ∧ ((handle_container_command cdc argv cmd_name con cls default_indicator s).2.config
          = s.config
        ∧ (∀ con' cls', con' ≠ con ∨ cls' ≠ cls →
          ((handle_container_command cdc argv cmd_name con cls default_indicator
              s).2.containers con').border_colors cls'
            = (s.containers con').border_colors cls')
        ∧ (∀ q, (s.containers con).border_colors cls ≠ some q → q ≠ s.heap.next →
          (handle_container_command cdc argv cmd_name con cls default_indicator
              s).2.heap.cells q = s.heap.cells q))
      ∧ ((∀ cls', cls' ≠ cls →
          (handle_command_context cdc argv cmd_name cls ctx default_indicator
              s).2.config.border_colors cls' = s.config.border_colors cls')
        ∧ (∀ con' cls', some con' ≠ ctx ∨ cls' ≠ cls →
          ((handle_command_context cdc argv cmd_name cls ctx default_indicator
              s).2.containers con').border_colors cls'
            = (s.containers con').border_colors cls')) := by
  refine ⟨?_, handle_container_command_frame cdc argv cmd_name con cls default_indicator s,
    ?_, ?_⟩
  · obtain ⟨hcon, hheap, -, hothers, -, -⟩ :=
      handle_command_frame cdc argv cmd_name cls default_indicator s
    exact ⟨hcon, hheap, hothers⟩
  · intro cls' hcls
    rcases handle_command_context_snd cdc argv cmd_name cls ctx default_indicator s with
      h | h | h | ⟨c, -, h⟩
    · rw [h]
    · rw [h]
      exact (handle_command_frame cdc argv.tail cmd_name cls default_indicator s).2.2.2.1
        cls' hcls
    · rw [h]
      exact (handle_command_frame cdc argv cmd_name cls default_indicator s).2.2.2.1 cls' hcls
    · rw [h, (handle_container_command_frame cdc argv cmd_name c cls default_indicator s).1]
  · intro con' cls' hne
    rcases handle_command_context_snd cdc argv cmd_name cls ctx default_indicator s with
      h | h | h | ⟨c, hc, h⟩
    · rw [h]
    · rw [h, (handle_command_frame cdc argv.tail cmd_name cls default_indicator s).1]
    · rw [h, (handle_command_frame cdc argv cmd_name cls default_indicator s).1]
    · rw [h]
      refine (handle_container_command_frame cdc argv cmd_name c cls default_indicator s).2.1
        con' cls' ?_
      rcases hne with hne | hne
      · left
        intro heq
        exact hne (by rw [hc, heq])
      · exact Or.inr hne

/-- Claim C18 at `client.urgent #ff0000ff #00ff00ff #0000ffff` on a state where container `0`
holds overrides for `urgent` (address `0`) and `focused` (address `1`): the entity-scoped call
leaves the `focused` slot and its record alone, and the global call leaves the global `focused`
record alone. -/
theorem mutation_frame_witness :
    ((handle_container_command hex_codec ["#ff0000ff", "#00ff00ff", "#0000ffff"]
        "client.urgent" 0 .urgent "#900000ff" State.with_two_overrides).2.containers
          0).border_colors .focused
        = (State.with_two_overrides.containers 0).border_colors .focused
      ∧ (handle_container_command hex_codec ["#ff0000ff", "#00ff00ff", "#0000ffff"]
          "client.urgent" 0 .urgent "#900000ff" State.with_two_overrides).2.heap.cells 1
          = State.with_two_overrides.heap.cells 1
      ∧ (handle_command hex_codec ["#ff0000ff", "#00ff00ff", "#0000ffff"] "client.urgent"
          .urgent "#900000ff" State.with_two_overrides).2.config.border_colors .focused
          = State.with_two_overrides.config.border_colors .focused :=
  have h := mutation_frame hex_codec ["#ff0000ff", "#00ff00ff", "#0000ffff"] "client.urgent" 0
    .urgent "#900000ff" State.with_two_overrides (some 0)
  ⟨h.2.1.2.1 0 .focused (Or.inr (by decide)), h.2.1.2.2 1 (by decide) (by decide),
    h.1.2.2 .focused (by decide)⟩

/-! ## `default` outside entity scope -/

/-- Claim C19. With no container in context the single argument `default`, and in any context
the arguments `global default`, reach `handle_colors` with the one token `default`: the call
returns the failure of the at-least-3 count check (status `CMD_INVALID`) and the state, with
the global table and every slot, is what it was. With no argument at all the call returns the
failure of the at-least-1 count check of `handle_command_context` in any context, again with
the state unchanged. With a container in context the single argument `default` succeeds. -/
theorem default_keyword_outside_entity_scope (cdc : Codec) (cmd_name : String)
    (cls : border_color_class) (default_indicator : String) (s : State) :
    (∃ e, checkarg 1 cmd_name .EXPECTED_AT_LEAST 3 = some e
        ∧ e.status = .CMD_INVALID
        ∧ handle_command_context cdc ["default"] cmd_name cls none default_indicator s = (e, s)
        ∧ ∀ con, handle_command_context cdc ["global", "default"] cmd_name cls con
            default_indicator s = (e, s))
      ∧ (∃ e, checkarg 0 cmd_name .EXPECTED_AT_LEAST 1 = some e
        ∧ e.status = .CMD_INVALID
        ∧ ∀ con, handle_command_context cdc [] cmd_name cls con default_indicator s = (e, s))
      ∧ (∀ c, (handle_command_context cdc ["default"] cmd_name cls (some c) default_indicator
          s).1 = cmd_results_new .CMD_SUCCESS none) := by
  refine ⟨?_, ?_, ?_⟩
  · obtain ⟨e, he⟩ := Option.isSome_iff_exists.mp
      (checkarg_at_least_isSome cmd_name (show 1 < 3 by decide))
    have hcolors : handle_colors cdc ["default"] cmd_name default_indicator
        = ⟨some e, none, []⟩ :=
      handle_colors_of_checkarg_some cdc ["default"] cmd_name default_indicator e
        (by simp [he])
    have hcmd : handle_command cdc ["default"] cmd_name cls default_indicator s
        = (some e, s) := by
      simp only [handle_command, hcolors, List.append_nil]
    have h1 : checkarg 1 cmd_name .EXPECTED_AT_LEAST 1 = none :=
      checkarg_at_least_eq_none cmd_name (Nat.le_refl 1)
    have h2 : checkarg 2 cmd_name .EXPECTED_AT_LEAST 1 = none :=
      checkarg_at_least_eq_none cmd_name (by decide)
    have hd : (["default"] : List String).getD 0 "" ≠ "global" := by decide
    have hg : (["global", "default"] : List String).getD 0 "" = "global" := rfl
    refine ⟨e, he, checkarg_status he, ?_, fun con => ?_⟩
    · simp only [handle_command_context, List.length_singleton, h1, hd, if_false, hcmd]
    · have hlen : (["global", "default"] : List String).length = 2 := rfl
      simp only [handle_command_context, hlen, h2, hg, if_true, List.tail_cons, hcmd]
  · obtain ⟨e, he⟩ := Option.isSome_iff_exists.mp
      (checkarg_at_least_isSome cmd_name (show 0 < 1 by decide))
    refine ⟨e, he, checkarg_status he, fun con => ?_⟩
    simp only [handle_command_context, List.length_nil, he]
  · intro c
    have h1 : checkarg 1 cmd_name .EXPECTED_AT_LEAST 1 = none :=
      checkarg_at_least_eq_none cmd_name (Nat.le_refl 1)
    have hd : (["default"] : List String).getD 0 "" ≠ "global" := by decide
    have hrun := handle_container_command_of_default cdc ["default"] cmd_name c cls
      default_indicator s rfl rfl
    simp only [handle_command_context, List.length_singleton, h1, hd, if_false, hrun]

end Sway
